import Mathlib

/-!
Verification of the RPC (rational polynomial coefficient) geolocation
transformer of `alg/gdal_rpc.cpp` against its natural-language
specification.

Modelling conventions:
* IEEE doubles are modelled as exact rationals (`ℚ`).  All the properties
  settled here are control-flow / exact-value properties, never properties
  of rounding.  Division by zero yields `0` in `ℚ` (the C code produces a
  non-finite value there); no theorem below depends on a division by zero.
* The `HUGE_VAL` invalid-coordinate sentinel is modelled by a dedicated
  constructor of the `Dbl` type, since it is written into coordinate
  arrays and compared with `==` by the code.
* External collaborators that are not part of this repository's sources
  (the elevation raster and `GDALInterpolateAtPoint`, GEOS prepared
  geometries, `OGRCoordinateTransformation`) are modelled as explicit
  oracle data carried by the transformer state; definitions derived from
  the spec rather than from in-repo code carry a
  "Modelled from the spec:" doc comment.
* C `static_cast<int>` on a double truncates toward zero; `floor` is the
  mathematical floor.  Both are modelled explicitly.
-/

/-- DEM resampling algorithm, mirroring the `DEMResampleAlg` enum. -/
inductive DEMResampleAlg where
  | DRA_NearestNeighbour : DEMResampleAlg
  | DRA_Bilinear : DEMResampleAlg
  | DRA_CubicSpline : DEMResampleAlg
deriving DecidableEq, Repr

/-- A C double as stored in the coordinate arrays: either a finite value or
the `HUGE_VAL` sentinel the transformer writes on per-point failure. -/
inductive Dbl where
  | num : ℚ → Dbl
  | hugeVal : Dbl
deriving DecidableEq, Repr

/-- Numeric reading of a coordinate cell.  `hugeVal` has no rational value;
the code only performs arithmetic on coordinates after they have passed the
sentinel/validity checks, and every theorem below only evaluates arithmetic
on finite cells, so the junk value `0` is never relied upon. -/
def Dbl.toQ : Dbl → ℚ
  | Dbl.num x => x
  | Dbl.hugeVal => 0

/-- The RPC model (`GDALRPCInfoV2`): offsets/scales and the four
20-coefficient vectors.  Coefficient vectors are total functions `ℕ → ℚ`
read at indices `0..19`. -/
structure GDALRPCInfoV2 where
  dfLINE_OFF : ℚ
  dfSAMP_OFF : ℚ
  dfLAT_OFF : ℚ
  dfLONG_OFF : ℚ
  dfHEIGHT_OFF : ℚ
  dfLINE_SCALE : ℚ
  dfSAMP_SCALE : ℚ
  dfLAT_SCALE : ℚ
  dfLONG_SCALE : ℚ
  dfHEIGHT_SCALE : ℚ
  adfLINE_NUM_COEFF : ℕ → ℚ
  adfLINE_DEN_COEFF : ℕ → ℚ
  adfSAMP_NUM_COEFF : ℕ → ℚ
  adfSAMP_DEN_COEFF : ℕ → ℚ
  dfMIN_LONG : ℚ
  dfMIN_LAT : ℚ
  dfMAX_LONG : ℚ
  dfMAX_LAT : ℚ

/-- The opened elevation dataset (external collaborator `GDALDataset`):
raster sizes, the band-1 cell values, and the band's nodata value. -/
structure DEMDataset where
  nRasterXSize : ℤ
  nRasterYSize : ℤ
  band : ℤ → ℤ → ℚ
  noDataValue : Option ℚ

/-- External `OGRCoordinateTransformation::Transform` on a single
(x, y, z) triple; `none` models a failed transformation. -/
def CoordTransform : Type := ℚ → ℚ → ℚ → Option (ℚ × ℚ × ℚ)

/-- The transformer state (`GDALRPCTransformInfo`), restricted to the
fields the transform functions read.  The footprint's prepared geometry is
the external GEOS containment test, modelled as a boolean predicate. -/
structure GDALRPCTransformInfo where
  sRPC : GDALRPCInfoV2
  adfPLToLatLongGeoTransform : ℕ → ℚ
  dfRefZ : ℚ
  bReversed : Bool
  dfPixErrThreshold : ℚ
  dfHeightOffset : ℚ
  dfHeightScale : ℚ
  pszDEMPath : Option String
  eResampleAlg : DEMResampleAlg
  bHasDEMMissingValue : Bool
  dfDEMMissingValue : ℚ
  pszDEMSRS : Option String
  bApplyDEMVDatumShift : Bool
  poDS : Option DEMDataset
  poCT : Option CoordTransform
  nMaxIterations : ℤ
  adfDEMGeoTransform : ℕ → ℚ
  adfDEMReverseGeoTransform : ℕ → ℚ
  pszRPCFootprint : Option String
  poRPCFootprintPreparedGeom : Option (ℚ → ℚ → Bool)

/-- C `static_cast<int>` applied to a double: truncation toward zero. -/
def cint (q : ℚ) : ℤ := if 0 ≤ q then ⌊q⌋ else -⌊-q⌋

/-- `GDALApplyGeoTransform`: apply an affine geotransform to (x, y). -/
def GDALApplyGeoTransform (gt : ℕ → ℚ) (x y : ℚ) : ℚ × ℚ :=
  (gt 0 + x * gt 1 + y * gt 2, gt 3 + x * gt 4 + y * gt 5)

/-- `RPCComputeTerms`: the 20 polynomial terms, index-for-index as the
source assigns `padfTerms[0..19]`.  Indices `≥ 20` are never read. -/
def RPCComputeTerms (dfLong dfLat dfHeight : ℚ) : ℕ → ℚ :=
  fun i =>
    match i with
    | 0 => 1
    | 1 => dfLong
    | 2 => dfLat
    | 3 => dfHeight
    | 4 => dfLong * dfLat
    | 5 => dfLong * dfHeight
    | 6 => dfLat * dfHeight
    | 7 => dfLong * dfLong
    | 8 => dfLat * dfLat
    | 9 => dfHeight * dfHeight
    | 10 => dfLong * dfLat * dfHeight
    | 11 => dfLong * dfLong * dfLong
    | 12 => dfLong * dfLat * dfLat
    | 13 => dfLong * dfHeight * dfHeight
    | 14 => dfLong * dfLong * dfLat
    | 15 => dfLat * dfLat * dfLat
    | 16 => dfLat * dfHeight * dfHeight
    | 17 => dfLong * dfLong * dfHeight
    | 18 => dfLat * dfLat * dfHeight
    | 19 => dfHeight * dfHeight * dfHeight
    | _ => 0

/-- `RPCEvaluate` (scalar variant): the striped even/odd accumulation of
`terms[i] * coefs[i]` for `i = 0, 2, …, 18` and `i = 1, 3, …, 19`. -/
def RPCEvaluate (padfTerms padfCoefs : ℕ → ℚ) : ℚ :=
  let dfSum1 := (List.range 10).foldl
    (fun s i => s + padfTerms (2 * i) * padfCoefs (2 * i)) 0
  let dfSum2 := (List.range 10).foldl
    (fun s i => s + padfTerms (2 * i + 1) * padfCoefs (2 * i + 1)) 0
  dfSum1 + dfSum2

/-- `RPCTransformPoint`: the forward (ground → image) transform.
Longitude wrap into (-270, 270], normalization, polynomial ratios, and the
final scale/offset/+0.5 denormalization. -/
def RPCTransformPoint (psRPCTransformInfo : GDALRPCTransformInfo)
    (dfLong dfLat dfHeight : ℚ) : ℚ × ℚ :=
  let diffLong0 := dfLong - psRPCTransformInfo.sRPC.dfLONG_OFF
  let diffLong :=
    if diffLong0 < -270 then diffLong0 + 360
    else if diffLong0 > 270 then diffLong0 - 360
    else diffLong0
  let dfNormalizedLong := diffLong / psRPCTransformInfo.sRPC.dfLONG_SCALE
  let dfNormalizedLat :=
    (dfLat - psRPCTransformInfo.sRPC.dfLAT_OFF) /
      psRPCTransformInfo.sRPC.dfLAT_SCALE
  let dfNormalizedHeight :=
    (dfHeight - psRPCTransformInfo.sRPC.dfHEIGHT_OFF) /
      psRPCTransformInfo.sRPC.dfHEIGHT_SCALE
  let padfTerms :=
    RPCComputeTerms dfNormalizedLong dfNormalizedLat dfNormalizedHeight
  let dfResultX :=
    RPCEvaluate padfTerms psRPCTransformInfo.sRPC.adfSAMP_NUM_COEFF /
      RPCEvaluate padfTerms psRPCTransformInfo.sRPC.adfSAMP_DEN_COEFF
  let dfResultY :=
    RPCEvaluate padfTerms psRPCTransformInfo.sRPC.adfLINE_NUM_COEFF /
      RPCEvaluate padfTerms psRPCTransformInfo.sRPC.adfLINE_DEN_COEFF
  (dfResultX * psRPCTransformInfo.sRPC.dfSAMP_SCALE +
      psRPCTransformInfo.sRPC.dfSAMP_OFF + 1/2,
   dfResultY * psRPCTransformInfo.sRPC.dfLINE_SCALE +
      psRPCTransformInfo.sRPC.dfLINE_OFF + 1/2)

/-- Modelled from the spec: `CubicSplineKernel` of
`gdalresamplingkernels.h` (not under the provided sources) — the cubic
B-spline kernel used by the batch optimizer's 4×4 convolution
(spec §4.5 "cubic-spline kernel"). -/
def CubicSplineKernel (x : ℚ) : ℚ :=
  if |x| ≤ 1 then (4 - 6 * |x| ^ 2 + 3 * |x| ^ 3) / 6
  else if |x| < 2 then (2 - |x|) ^ 3 / 6
  else 0

/-- Modelled from the spec: `ARE_REAL_EQUAL` of `cpl_port.h` (not under
the provided sources) — the nodata comparison; the spec speaks of "a
nodata value encountered during interpolation", i.e. an equality test. -/
def ARE_REAL_EQUAL (a b : ℚ) : Bool := a == b

/-- Modelled from the spec: `GDALInterpolateAtPoint`
(`gdal_interpolateatpoint.cpp`, not under the provided sources) — the
per-point elevation sampling oracle of spec §4.3: a lookup outside the
raster extent fails, a nodata value encountered during interpolation
fails, otherwise the value is interpolated with the selected kernel
(read-through cache omitted: a cache hit is identical to a fresh
sample). -/
def GDALInterpolateAtPoint (xsize ysize : ℤ) (band : ℤ → ℤ → ℚ)
    (noData : Option ℚ) (alg : DEMResampleAlg) (x y : ℚ) : Option ℚ :=
  if x < 0 ∨ x > (xsize : ℚ) ∨ y < 0 ∨ y > (ysize : ℚ) then none
  else
    match alg with
    | DEMResampleAlg.DRA_NearestNeighbour =>
      let v := band ⌊x⌋ ⌊y⌋
      match noData with
      | some nd => if v = nd then none else some v
      | none => some v
    | DEMResampleAlg.DRA_Bilinear =>
      let px := x - 1/2
      let py := y - 1/2
      let x0 := ⌊px⌋
      let y0 := ⌊py⌋
      let dx := px - (x0 : ℚ)
      let dy := py - (y0 : ℚ)
      let v00 := band x0 y0
      let v10 := band (x0 + 1) y0
      let v01 := band x0 (y0 + 1)
      let v11 := band (x0 + 1) (y0 + 1)
      let bad := fun v =>
        match noData with
        | some nd => v == nd
        | none => false
      if bad v00 || bad v10 || bad v01 || bad v11 then none
      else
        some ((v00 * (1 - dx) + v10 * dx) * (1 - dy) +
              (v01 * (1 - dx) + v11 * dx) * dy)
    | DEMResampleAlg.DRA_CubicSpline =>
      let px := x - 1/2
      let py := y - 1/2
      let x0 := ⌊px⌋
      let y0 := ⌊py⌋
      let dx := px - (x0 : ℚ)
      let dy := py - (y0 : ℚ)
      let bad := fun v =>
        match noData with
        | some nd => v == nd
        | none => false
      let cells := (List.range 4).flatMap
        (fun j => (List.range 4).map
          (fun i => ((i : ℤ) - 1, (j : ℤ) - 1)))
      if cells.any (fun c => bad (band (x0 + c.1) (y0 + c.2))) then none
      else
        some (cells.foldl
          (fun s c =>
            s + band (x0 + c.1) (y0 + c.2) *
              CubicSplineKernel ((c.1 : ℚ) - dx) *
              CubicSplineKernel ((c.2 : ℚ) - dy)) 0)

/-- `GDALRPCGetDEMHeight`: sample the opened DEM at fractional raster
coordinates with the transformer's resampling algorithm; `none` is the
`FALSE` return (nodata hit or out of extent). -/
def GDALRPCGetDEMHeight (psTransform : GDALRPCTransformInfo)
    (ds : DEMDataset) (dfXIn dfYIn : ℚ) : Option ℚ :=
  GDALInterpolateAtPoint ds.nRasterXSize ds.nRasterYSize ds.band
    ds.noDataValue psTransform.eResampleAlg dfXIn dfYIn

/-- `GDALRPCGetHeightAtLongLat`: result height (`none` = failed
transform / missing elevation) together with the DEM (pixel, line) probe
that the caller's `pdfDEMPixel`/`pdfDEMLine` output arguments receive
(`(0, 0)` when they were never written). -/
def GDALRPCGetHeightAtLongLat (psTransform : GDALRPCTransformInfo)
    (dfXIn dfYIn : ℚ) : Option ℚ × ℚ × ℚ :=
  match psTransform.poDS with
  | none =>
    -- No DEM: dfDEMH = 0, dfVDatumShift = 0.
    (some (0 + (psTransform.dfHeightOffset + 0 * psTransform.dfHeightScale)),
     0, 0)
  | some ds =>
    let ctStep : Option (ℚ × ℚ × ℚ) :=
      match psTransform.poCT with
      | none => some (dfXIn, dfYIn, 0)
      | some ct =>
        match ct dfXIn dfYIn 0 with
        | none => none
        | some (xT, yT, zT) =>
          (xT, yT, if psTransform.bApplyDEMVDatumShift then -zT else 0)
    match ctStep with
    | none => (none, 0, 0)
    | some (dfXTemp, dfYTemp, dfVDatumShift) =>
      let attempt := fun (xT yT : ℚ) =>
        let p := GDALApplyGeoTransform
          psTransform.adfDEMReverseGeoTransform xT yT
        (GDALRPCGetDEMHeight psTransform ds p.1 p.2, p.1, p.2)
      let first := attempt dfXTemp dfYTemp
      let mk := fun (dfDEMH dfX dfY : ℚ) =>
        (some (dfVDatumShift + (psTransform.dfHeightOffset +
            dfDEMH * psTransform.dfHeightScale)), dfX, dfY)
      match first with
      | (some h, dfX, dfY) => mk h dfX dfY
      | (none, dfX, dfY) =>
        let nRasterXSize := ds.nRasterXSize
        let dfMinDEMLong := psTransform.adfDEMGeoTransform 0
        let dfMaxDEMLong := psTransform.adfDEMGeoTransform 0 +
          (nRasterXSize : ℚ) * psTransform.adfDEMGeoTransform 1
        if psTransform.poCT.isNone ∧ (dfXIn ≥ 180 ∨ dfXIn ≤ -180) ∧
            |dfMinDEMLong - (-180)| < 1/10 ∧ |dfMaxDEMLong - 180| < 1/10 then
          let dfXTemp2 := if dfXIn ≥ 180 then dfXIn - 360 else dfXIn + 360
          match attempt dfXTemp2 dfYIn with
          | (some h, dfX2, dfY2) => mk h dfX2 dfY2
          | (none, dfX2, dfY2) =>
            if psTransform.bHasDEMMissingValue then
              mk psTransform.dfDEMMissingValue dfX2 dfY2
            else (none, dfX2, dfY2)
        else
          if psTransform.bHasDEMMissingValue then
            mk psTransform.dfDEMMissingValue dfX dfY
          else (none, dfX, dfY)

/-- `RPCIsValidLongLat`: containment in the prepared footprint geometry;
vacuously true when no footprint is configured. -/
def RPCIsValidLongLat (psTransform : GDALRPCTransformInfo)
    (dfLong dfLat : ℚ) : Bool :=
  match psTransform.poRPCFootprintPreparedGeom with
  | none => true
  | some contains => contains dfLong dfLat

/-- The first-iteration DEM snap of `RPCInverseTransformPoint`
(lines guarded by `iIter == 0`), verbatim: note that the second
`else if` re-tests `dfDEMPixel < 0` (and re-assigns `dfDEMPixel`)
where the line axis would be expected. -/
def snapDEMPixelLine (nRasterXSize nRasterYSize : ℤ)
    (dfDEMPixel0 dfDEMLine0 : ℚ) : ℚ × ℚ :=
  let dfDEMPixel1 :=
    if dfDEMPixel0 ≥ (nRasterXSize : ℚ) then (nRasterXSize : ℚ) - 1/2
    else if dfDEMPixel0 < 0 then 1/2
    else dfDEMPixel0
  let dfDEMLine1 :=
    if dfDEMLine0 ≥ (nRasterYSize : ℚ) then (nRasterYSize : ℚ) - 1/2
    else dfDEMLine0
  let dfDEMPixel2 :=
    if ¬ (dfDEMLine0 ≥ (nRasterYSize : ℚ)) ∧ dfDEMPixel1 < 0 then 1/2
    else dfDEMPixel1
  (dfDEMPixel2, dfDEMLine1)

/-- Iteration state of the inverse solver's loop. -/
structure InvState where
  dfResultX : ℚ
  dfResultY : ℚ
  dfLastResultX : ℚ
  dfLastResultY : ℚ
  dfLastPixelDeltaX : ℚ
  dfLastPixelDeltaY : ℚ
  bLastPixelDeltaValid : Bool
  nCountConsecutiveErrorBelow2 : ℕ

/-- One-shot height determination at the top of an inverse iteration:
the sampled height, or on the very first iteration the snapped-cell /
reference-point fallback; `none` aborts the point (iteration > 0). -/
def invIterHeight (psTransform : GDALRPCTransformInfo) (iIter : ℕ)
    (dfResultX dfResultY : ℚ) : Option ℚ :=
  match GDALRPCGetHeightAtLongLat psTransform dfResultX dfResultY with
  | (some h, _, _) => some h
  | (none, dfDEMPixel, dfDEMLine) =>
    if iIter = 0 then
      some (match psTransform.poDS with
        | some ds =>
          let snapped := snapDEMPixelLine ds.nRasterXSize ds.nRasterYSize
            dfDEMPixel dfDEMLine
          match GDALRPCGetDEMHeight psTransform ds snapped.1 snapped.2 with
          | some h2 => h2
          | none => psTransform.dfRefZ
        | none => psTransform.dfRefZ)
    else none

/-- The iteration loop of `RPCInverseTransformPoint`.  Returns the
converged (long, lat) — `none` on failure — paired with the number of
`RPCTransformPoint` (forward-evaluator) calls performed. -/
def RPCInverseLoop (psTransform : GDALRPCTransformInfo)
    (dfPixel dfLine dfUserHeight : ℚ) :
    ℕ → ℕ → InvState → Option (ℚ × ℚ) × ℕ
  | 0, _, _ => (none, 0)
  | fuel + 1, iIter, st =>
    match invIterHeight psTransform iIter st.dfResultX st.dfResultY with
    | none => (none, 0)
    | some dfDEMH =>
      let back := RPCTransformPoint psTransform st.dfResultX st.dfResultY
        (dfUserHeight + dfDEMH)
      let dfPixelDeltaX := back.1 - dfPixel
      let dfPixelDeltaY := back.2 - dfLine
      let dfError := max |dfPixelDeltaX| |dfPixelDeltaY|
      if dfError < psTransform.dfPixErrThreshold then
        (some (st.dfResultX, st.dfResultY), 1)
      else if psTransform.poDS.isSome ∧ st.bLastPixelDeltaValid ∧
          dfPixelDeltaX * st.dfLastPixelDeltaX < 0 ∧
          dfPixelDeltaY * st.dfLastPixelDeltaY < 0 then
        let st1 : InvState :=
          { st with
            dfResultX := (|dfPixelDeltaX| * st.dfLastResultX +
                |st.dfLastPixelDeltaX| * st.dfResultX) /
              (|dfPixelDeltaX| + |st.dfLastPixelDeltaX|)
            dfResultY := (|dfPixelDeltaY| * st.dfLastResultY +
                |st.dfLastPixelDeltaY| * st.dfResultY) /
              (|dfPixelDeltaY| + |st.dfLastPixelDeltaY|)
            bLastPixelDeltaValid := false
            nCountConsecutiveErrorBelow2 := 0 }
        let rest := RPCInverseLoop psTransform dfPixel dfLine dfUserHeight
          fuel (iIter + 1) st1
        (rest.1, rest.2 + 1)
      else
        let dfBoostFactor : ℚ :=
          if psTransform.poDS.isSome ∧
              st.nCountConsecutiveErrorBelow2 ≥ 5 ∧ dfError < 2 then 10
          else 1
        let cnt1 :=
          if dfError < 2 then st.nCountConsecutiveErrorBelow2 + 1 else 0
        let gt := psTransform.adfPLToLatLongGeoTransform
        let st1 : InvState :=
          { dfResultX := st.dfResultX -
              dfPixelDeltaX * gt 1 * dfBoostFactor -
              dfPixelDeltaY * gt 2 * dfBoostFactor
            dfResultY := st.dfResultY -
              dfPixelDeltaX * gt 4 * dfBoostFactor -
              dfPixelDeltaY * gt 5 * dfBoostFactor
            dfLastResultX := st.dfResultX
            dfLastResultY := st.dfResultY
            dfLastPixelDeltaX := dfPixelDeltaX
            dfLastPixelDeltaY := dfPixelDeltaY
            bLastPixelDeltaValid := true
            nCountConsecutiveErrorBelow2 := cnt1 }
        let rest := RPCInverseLoop psTransform dfPixel dfLine dfUserHeight
          fuel (iIter + 1) st1
        (rest.1, rest.2 + 1)

/-- The effective iteration budget: the configured maximum when positive,
else 20 with a DEM and 10 without. -/
def effectiveMaxIterations (psTransform : GDALRPCTransformInfo) : ℕ :=
  if 0 < psTransform.nMaxIterations then psTransform.nMaxIterations.toNat
  else if psTransform.poDS.isSome then 20
  else 10

/-- `RPCInverseTransformPoint`: affine seed followed by the iteration
loop; the second component counts the forward-evaluator calls. -/
def RPCInverseTransformPoint (psTransform : GDALRPCTransformInfo)
    (dfPixel dfLine dfUserHeight : ℚ) : Option (ℚ × ℚ) × ℕ :=
  let gt := psTransform.adfPLToLatLongGeoTransform
  let st0 : InvState :=
    { dfResultX := gt 0 + gt 1 * dfPixel + gt 2 * dfLine
      dfResultY := gt 3 + gt 4 * dfPixel + gt 5 * dfLine
      dfLastResultX := 0
      dfLastResultY := 0
      dfLastPixelDeltaX := 0
      dfLastPixelDeltaY := 0
      bLastPixelDeltaValid := false
      nCountConsecutiveErrorBelow2 := 0 }
  RPCInverseLoop psTransform dfPixel dfLine dfUserHeight
    (effectiveMaxIterations psTransform) 0 st0

/-- One entry of the parallel (x, y, z) coordinate arrays handed to
`GDALRPCTransform`.  A `null` `padfZ` is modelled by zero entries, the
value the code substitutes (`padfZ ? padfZ[i] : 0.0`). -/
structure RPCPoint where
  x : Dbl
  y : Dbl
  z : ℚ
deriving DecidableEq, Repr

/-- Per-point outcome: the mutated x/y cells and the success flag. -/
structure RPCPointResult where
  x : Dbl
  y : Dbl
  success : Bool
deriving DecidableEq, Repr

/-- Default used for out-of-range array reads (never reached on the paths
the code takes: the batch preamble only reads indices below the length,
which is `≥ 10` there). -/
def RPCPoint.dflt : RPCPoint := { x := Dbl.num 0, y := Dbl.num 0, z := 0 }

/-- A per-point loop over the coordinate arrays: the in-place mutation of
each entry together with the running `bRet` flag that starts `TRUE` and is
cleared by every failing point. -/
def runPoints (f : RPCPoint → RPCPointResult) (pts : List RPCPoint) :
    List RPCPointResult × Bool :=
  let out := pts.map f
  (out, out.foldl (fun b o => b && o.success) true)

/-- The loop body of `GDALRPCTransformWholeLineWithDEM` for one point.
`bufRC r c` is `padfDEMBuffer[r * nXWidth + c]`, i.e. the window cell at
column `nXLeft + c`, row `nYTop + r` of the DEM band. -/
def GDALRPCTransformWholeLineOnePoint (psTransform : GDALRPCTransformInfo)
    (ds : DEMDataset) (nXLeft : ℤ) (nYTop : ℤ) (dfDeltaY : ℚ)
    (p : RPCPoint) : RPCPointResult :=
  match p.x with
  | Dbl.hugeVal => { x := p.x, y := p.y, success := false }
  | Dbl.num xq =>
    let yq := p.y.toQ
    let dfZ_i := p.z
    let bufRC := fun (r c : ℤ) => ds.band (nXLeft + c) (nYTop + r)
    let revGT := psTransform.adfDEMReverseGeoTransform
    let isNoData := fun (v : ℚ) =>
      match ds.noDataValue with
      | some nd => ARE_REAL_EQUAL nd v
      | none => false
    -- Shared tail: footprint check then the forward transform at
    -- dfZ_i + (dfHeightOffset + dfDEMH) * dfHeightScale.
    let tail := fun (dfDEMH : ℚ) =>
      if ¬ RPCIsValidLongLat psTransform xq yq then
        { x := Dbl.hugeVal, y := Dbl.hugeVal, success := false }
      else
        let r := RPCTransformPoint psTransform xq yq
          (dfZ_i + (psTransform.dfHeightOffset + dfDEMH) *
            psTransform.dfHeightScale)
        { x := Dbl.num r.1, y := Dbl.num r.2, success := true }
    match psTransform.eResampleAlg with
    | DEMResampleAlg.DRA_CubicSpline =>
      let dfX := revGT 0 + xq * revGT 1 - 1/2
      let nX := cint dfX
      let dfDeltaX := dfX - (nX : ℚ)
      let nXNew := nX - 1
      let cells := (List.range 4).flatMap
        (fun ki => (List.range 4).map (fun kj => (ki, kj)))
      let acc := cells.foldl
        (fun (a : ℚ × ℚ) c =>
          let dKernIndX : ℤ := (c.2 : ℤ) - 1
          let dKernIndY : ℤ := (c.1 : ℤ) - 1
          let dfPixelWeight :=
            CubicSplineKernel ((dKernIndX : ℚ) - dfDeltaX) *
              CubicSplineKernel ((dKernIndY : ℚ) - dfDeltaY)
          let dfElev := bufRC (c.1 : ℤ) (nXNew - nXLeft + (c.2 : ℤ))
          if isNoData dfElev then a
          else (a.1 + dfElev * dfPixelWeight, a.2 + dfPixelWeight))
        (0, 0)
      if acc.2 = 0 then
        if psTransform.bHasDEMMissingValue then
          tail psTransform.dfDEMMissingValue
        else
          -- Failure leaves padfX[i]/padfY[i] untouched here.
          { x := p.x, y := p.y, success := false }
      else tail (acc.1 / acc.2)
    | DEMResampleAlg.DRA_Bilinear =>
      let dfX := revGT 0 + xq * revGT 1 - 1/2
      let nX := cint dfX
      let dfDeltaX := dfX - (nX : ℚ)
      let e0 := bufRC 0 (nX - nXLeft)
      let e1 := bufRC 0 (nX - nXLeft + 1)
      let e2 := bufRC 1 (nX - nXLeft)
      let e3 := bufRC 1 (nX - nXLeft + 1)
      let bilin :=
        let dfDeltaX1 := 1 - dfDeltaX
        let dfDeltaY1 := 1 - dfDeltaY
        let dfXZ1 := e0 * dfDeltaX1 + e1 * dfDeltaX
        let dfXZ2 := e2 * dfDeltaX1 + e3 * dfDeltaX
        dfXZ1 * dfDeltaY1 + dfXZ2 * dfDeltaY
      if ds.noDataValue.isSome then
        let bFoundNoDataElev :=
          isNoData e0 || isNoData e1 || isNoData e2 || isNoData e3
        let k_valid_sample : Option ℚ :=
          if ¬ isNoData e0 then some e0
          else if ¬ isNoData e1 then some e1
          else if ¬ isNoData e2 then some e2
          else if ¬ isNoData e3 then some e3
          else none
        if bFoundNoDataElev then
          match k_valid_sample with
          | some v => tail v
          | none =>
            if psTransform.bHasDEMMissingValue then
              tail psTransform.dfDEMMissingValue
            else
              { x := Dbl.hugeVal, y := Dbl.hugeVal, success := false }
        else tail bilin
      else tail bilin
    | DEMResampleAlg.DRA_NearestNeighbour =>
      let dfX := revGT 0 + xq * revGT 1
      let nX := cint dfX
      let dfDEMH := bufRC 0 (nX - nXLeft)
      if isNoData dfDEMH then
        if psTransform.bHasDEMMissingValue then
          tail psTransform.dfDEMMissingValue
        else
          { x := Dbl.hugeVal, y := Dbl.hugeVal, success := false }
      else tail dfDEMH

/-- `GDALRPCTransformWholeLineWithDEM`: one bulk window read (modelled by
direct band access; the allocation and `RasterIO` are assumed to succeed)
followed by the per-point in-memory interpolation loop. -/
def GDALRPCTransformWholeLineWithDEM (psTransform : GDALRPCTransformInfo)
    (ds : DEMDataset) (pts : List RPCPoint)
    (nXLeft _nXWidth nYTop _nYHeight : ℤ) : List RPCPointResult × Bool :=
  let y0 := (pts.getD 0 RPCPoint.dflt).y.toQ
  let dfY := psTransform.adfDEMReverseGeoTransform 3 +
    y0 * psTransform.adfDEMReverseGeoTransform 5 - 1/2
  let nY := cint dfY
  let dfDeltaY := dfY - (nY : ℚ)
  runPoints
    (GDALRPCTransformWholeLineOnePoint psTransform ds nXLeft nYTop dfDeltaY)
    pts

/-- The forward (lat/long → pixel/line) loop body of `GDALRPCTransform`:
footprint check, elevation lookup, forward transform. -/
def RPCForwardOnePoint (psTransform : GDALRPCTransformInfo)
    (p : RPCPoint) : RPCPointResult :=
  if ¬ RPCIsValidLongLat psTransform p.x.toQ p.y.toQ then
    { x := Dbl.hugeVal, y := Dbl.hugeVal, success := false }
  else
    match (GDALRPCGetHeightAtLongLat psTransform p.x.toQ p.y.toQ).1 with
    | none => { x := Dbl.hugeVal, y := Dbl.hugeVal, success := false }
    | some dfHeight =>
      let r := RPCTransformPoint psTransform p.x.toQ p.y.toQ
        (p.z + dfHeight)
      { x := Dbl.num r.1, y := Dbl.num r.2, success := true }

/-- The inverse (pixel/line → lat/long) loop body of `GDALRPCTransform`.
The validity check is performed on `padfX[i]`/`padfY[i]` — which at that
program point still hold the input pixel/line, the results only being
stored afterwards. -/
def RPCInverseOnePoint (psTransform : GDALRPCTransformInfo)
    (p : RPCPoint) : RPCPointResult :=
  match (RPCInverseTransformPoint psTransform p.x.toQ p.y.toQ p.z).1 with
  | none => { x := Dbl.hugeVal, y := Dbl.hugeVal, success := false }
  | some r =>
    if ¬ RPCIsValidLongLat psTransform p.x.toQ p.y.toQ then
      { x := Dbl.hugeVal, y := Dbl.hugeVal, success := false }
    else
      { x := Dbl.num r.1, y := Dbl.num r.2, success := true }

/-- The batch window computed by `GDALRPCTransform` before engaging the
row optimizer: (nXLeft, nXWidth, nYTop, nYHeight). -/
def RPCWholeLineWindow (psTransform : GDALRPCTransformInfo)
    (pts : List RPCPoint) : ℤ × ℤ × ℤ × ℤ :=
  let y0 := (pts.getD 0 RPCPoint.dflt).y
  let revGT := psTransform.adfDEMReverseGeoTransform
  let x0 := (pts.getD 0 RPCPoint.dflt).x.toQ
  let dfMinX := pts.foldl (fun m p => min m p.x.toQ) x0
  let dfMaxX := pts.foldl (fun m p => max m p.x.toQ) x0
  let a := GDALApplyGeoTransform revGT dfMinX y0.toQ
  let b := GDALApplyGeoTransform revGT dfMaxX y0.toQ
  let shift :=
    psTransform.eResampleAlg ≠ DEMResampleAlg.DRA_NearestNeighbour
  let dfX1 := if shift then a.1 - 1/2 else a.1
  let dfY1 := if shift then a.2 - 1/2 else a.2
  let dfX2 := if shift then b.1 - 1/2 else b.1
  let nXLeft0 : ℤ := ⌊dfX1⌋
  let nXRight : ℤ := ⌊dfX2⌋
  let nXWidth0 := nXRight - nXLeft0 + 1
  let nYTop0 : ℤ := ⌊dfY1⌋
  match psTransform.eResampleAlg with
  | DEMResampleAlg.DRA_CubicSpline =>
    (nXLeft0 - 1, nXWidth0 + 3, nYTop0 - 1, (4 : ℤ))
  | DEMResampleAlg.DRA_Bilinear =>
    (nXLeft0, nXWidth0 + 1, nYTop0, (2 : ℤ))
  | DEMResampleAlg.DRA_NearestNeighbour =>
    (nXLeft0, nXWidth0, nYTop0, (1 : ℤ))

/-- The row optimizer\'s applicability test of `GDALRPCTransform`:
at least 10 points, no coordinate transformation, first/last/middle
latitudes equal, axis-aligned positive-step inverse geotransform, the
enabling switch, all latitudes equal, and the padded window inside the
raster. -/
def RPCBatchApplicable (psTransform : GDALRPCTransformInfo)
    (ds : DEMDataset) (pts : List RPCPoint) (demOptim : Bool) : Bool :=
  let n := pts.length
  let y0 := (pts.getD 0 RPCPoint.dflt).y
  let yLast := (pts.getD (n - 1) RPCPoint.dflt).y
  let yMid := (pts.getD (n / 2) RPCPoint.dflt).y
  let revGT := psTransform.adfDEMReverseGeoTransform
  let outerCond := decide (n ≥ 10) && psTransform.poCT.isNone &&
    (y0 == yLast) && (y0 == yMid) && decide (revGT 1 > 0) &&
    (revGT 2 == 0) && (revGT 4 == 0) && demOptim
  let bUseOptimized := pts.all (fun p => p.y == y0)
  let w := RPCWholeLineWindow psTransform pts
  let windowOK := decide (w.1 ≥ 0 ∧
    w.1 + w.2.1 ≤ ds.nRasterXSize ∧ w.2.2.1 ≥ 0 ∧
    w.2.2.1 + w.2.2.2 ≤ ds.nRasterYSize)
  outerCond && bUseOptimized && windowOK

/-- `GDALRPCTransform`: direction resolution (`bReversed` flips
`bDstToSrc`), the batch-optimizer applicability test and window
computation, and dispatch to the batch, forward per-point, or inverse
per-point loop.  `demOptim` models the `GDAL_RPC_DEM_OPTIM` configuration
switch (default on). -/
def GDALRPCTransform (psTransform : GDALRPCTransformInfo)
    (bDstToSrc : Bool) (pts : List RPCPoint) (demOptim : Bool) :
    List RPCPointResult × Bool :=
  let dst := if psTransform.bReversed then !bDstToSrc else bDstToSrc
  if dst then
    match psTransform.poDS with
    | some ds =>
      if RPCBatchApplicable psTransform ds pts demOptim then
        let w := RPCWholeLineWindow psTransform pts
        GDALRPCTransformWholeLineWithDEM psTransform ds pts
          w.1 w.2.1 w.2.2.1 w.2.2.2
      else runPoints (RPCForwardOnePoint psTransform) pts
    | none => runPoints (RPCForwardOnePoint psTransform) pts
  else runPoints (RPCInverseOnePoint psTransform) pts

/-- A transformer-option value.  Numeric options are printed by the code
with `%.17g` and re-read with `CPLAtof`, a lossless round trip for
doubles, so they are modelled by their exact value; string options keep
their text. -/
inductive OptVal where
  | str : String → OptVal
  | q : ℚ → OptVal
  | b : Bool → OptVal
  | int : ℤ → OptVal
deriving DecidableEq, Repr

/-- `CSLSetNameValue`: replace the first binding of the key, else append. -/
def CSLSetNameValue (l : List (String × OptVal)) (k : String) (v : OptVal) :
    List (String × OptVal) :=
  if l.any (fun kv => kv.1 = k) then
    l.map (fun kv => if kv.1 = k then (k, v) else kv)
  else l ++ [(k, v)]

/-- `CSLFetchNameValue`: first binding of the key, if any. -/
def CSLFetchNameValue (l : List (String × OptVal)) (k : String) :
    Option OptVal :=
  (l.find? (fun kv => kv.1 = k)).map (fun kv => kv.2)

/-- `CPLAtof` on an option value (numeric values are exact). -/
def OptVal.atof : OptVal → ℚ
  | OptVal.q x => x
  | OptVal.int n => (n : ℚ)
  | _ => 0

/-- C `atoi` on an option value. -/
def OptVal.atoi : OptVal → ℤ
  | OptVal.int n => n
  | OptVal.q x => x.num / (x.den : ℤ)
  | _ => 0

/-- Boolean reading of an option value (`CPLTestBool` on "TRUE"/"FALSE"). -/
def OptVal.toBool : OptVal → Bool
  | OptVal.b v => v
  | OptVal.str s => s = "TRUE" ∨ s = "true" ∨ s = "YES" ∨ s = "1"
  | OptVal.int n => n ≠ 0
  | OptVal.q x => x ≠ 0

/-- String reading of an option value. -/
def OptVal.asString : OptVal → String
  | OptVal.str s => s
  | _ => ""

/-- `CPLFetchBool` with a default. -/
def CPLFetchBool (l : List (String × OptVal)) (k : String) (dflt : Bool) :
    Bool :=
  match CSLFetchNameValue l k with
  | some v => v.toBool
  | none => dflt

/-- The option-parsing stage of `GDALCreateRPCTransformerV2` (the field
assignments before the DEM is opened and the reference-point affine is
derived; those later stages consult external collaborators and none of the
claims below depend on them). -/
structure RPCParsedConfig where
  sRPC : GDALRPCInfoV2
  bReversed : Bool
  dfPixErrThreshold : ℚ
  dfHeightOffset : ℚ
  dfHeightScale : ℚ
  pszDEMPath : Option String
  eResampleAlg : DEMResampleAlg
  bHasDEMMissingValue : Bool
  dfDEMMissingValue : ℚ
  pszDEMSRS : Option String
  bApplyDEMVDatumShift : Bool
  nMaxIterations : ℤ
  pszRPCFootprint : Option String

/-- Parse of `RPC_DEMINTERPOLATION` ("near" / "bilinear" / "cubic",
anything else falling back to bilinear). -/
def parseDEMInterpolation (s : String) : DEMResampleAlg :=
  if s = "near" then DEMResampleAlg.DRA_NearestNeighbour
  else if s = "bilinear" then DEMResampleAlg.DRA_Bilinear
  else if s = "cubic" then DEMResampleAlg.DRA_CubicSpline
  else DEMResampleAlg.DRA_Bilinear

/-- `GDALCreateRPCTransformerV2`, option-parsing stage: threshold
resolution (option, else positive parameter, else the 0.1 default),
height offset/scale, DEM path/interpolation/missing value/SRS, vdatum
flag (default true), max iterations (default 0), footprint string. -/
def GDALCreateRPCTransformerV2 (psRPCInfo : GDALRPCInfoV2)
    (bReversed : Bool) (dfPixErrThreshold : ℚ)
    (papszOptions : List (String × OptVal)) : RPCParsedConfig :=
  let threshold :=
    match CSLFetchNameValue papszOptions "RPC_PIXEL_ERROR_THRESHOLD" with
    | some v => v.atof
    | none =>
      if dfPixErrThreshold > 0 then dfPixErrThreshold else 1/10
  let heightOffset :=
    match CSLFetchNameValue papszOptions "RPC_HEIGHT" with
    | some v => v.atof
    | none => 0
  let heightScale :=
    match CSLFetchNameValue papszOptions "RPC_HEIGHT_SCALE" with
    | some v => v.atof
    | none => 1
  let demPath :=
    (CSLFetchNameValue papszOptions "RPC_DEM").map OptVal.asString
  let resample :=
    match CSLFetchNameValue papszOptions "RPC_DEMINTERPOLATION" with
    | some v => parseDEMInterpolation v.asString
    | none => DEMResampleAlg.DRA_Bilinear
  let missing := CSLFetchNameValue papszOptions "RPC_DEM_MISSING_VALUE"
  let demSRS :=
    (CSLFetchNameValue papszOptions "RPC_DEM_SRS").map OptVal.asString
  { sRPC := psRPCInfo
    bReversed := bReversed
    dfPixErrThreshold := threshold
    dfHeightOffset := heightOffset
    dfHeightScale := heightScale
    pszDEMPath := demPath
    eResampleAlg := resample
    bHasDEMMissingValue := missing.isSome
    dfDEMMissingValue := (missing.map OptVal.atof).getD 0
    pszDEMSRS := demSRS
    bApplyDEMVDatumShift :=
      CPLFetchBool papszOptions "RPC_DEM_APPLY_VDATUM_SHIFT" true
    nMaxIterations :=
      match CSLFetchNameValue papszOptions "RPC_MAX_ITERATIONS" with
      | some v => v.atoi
      | none => 0
    pszRPCFootprint :=
      (CSLFetchNameValue papszOptions "RPC_FOOTPRINT").map OptVal.asString }

/-- `GDALSerializeRPCDEMResample`: the interpolation name written out. -/
def GDALSerializeRPCDEMResample : DEMResampleAlg → String
  | DEMResampleAlg.DRA_NearestNeighbour => "near"
  | DEMResampleAlg.DRA_CubicSpline => "cubic"
  | DEMResampleAlg.DRA_Bilinear => "bilinear"

/-- `GDALCreateSimilarRPCTransformer`: the scaled RPC model and the
option list handed to `GDALCreateRPCTransformerV2` for the clone. -/
def GDALCreateSimilarRPCTransformer (psInfo : GDALRPCTransformInfo)
    (dfRatioX dfRatioY : ℚ) : GDALRPCInfoV2 × List (String × OptVal) :=
  let sRPC0 := psInfo.sRPC
  let sRPC :=
    if dfRatioX ≠ 1 ∨ dfRatioY ≠ 1 then
      { sRPC0 with
        dfLINE_OFF := sRPC0.dfLINE_OFF / dfRatioY
        dfLINE_SCALE := sRPC0.dfLINE_SCALE / dfRatioY
        dfSAMP_OFF := sRPC0.dfSAMP_OFF / dfRatioX
        dfSAMP_SCALE := sRPC0.dfSAMP_SCALE / dfRatioX }
    else sRPC0
  let o0 : List (String × OptVal) := []
  let o1 := CSLSetNameValue o0 "RPC_HEIGHT" (OptVal.q psInfo.dfHeightOffset)
  let o2 := CSLSetNameValue o1 "RPC_HEIGHT_SCALE"
    (OptVal.q psInfo.dfHeightScale)
  let o3 :=
    match psInfo.pszDEMPath with
    | none => o2
    | some path =>
      let d1 := CSLSetNameValue o2 "RPC_DEM" (OptVal.str path)
      let d2 := CSLSetNameValue d1 "RPC_DEMINTERPOLATION"
        (OptVal.str (GDALSerializeRPCDEMResample psInfo.eResampleAlg))
      let d3 :=
        if psInfo.bHasDEMMissingValue then
          CSLSetNameValue d2 "RPC_DEM_MISSING_VALUE"
            (OptVal.q psInfo.dfDEMMissingValue)
        else d2
      CSLSetNameValue d3 "RPC_DEM_APPLY_VDATUM_SHIFT"
        (OptVal.b psInfo.bApplyDEMVDatumShift)
  let o4 := CSLSetNameValue o3 "RPC_MAX_ITERATIONS"
    (OptVal.int psInfo.nMaxIterations)
  (sRPC, o4)

/-- The serialized `RPCTransformer` tree (`GDALSerializeRPCTransformer`
output): optional elements are present exactly when the serializer emits
them; the RPC metadata block round-trips through `RPCInfoV2ToMD` /
`GDALExtractRPCInfoV2` (the latter external to these sources), both sides
of which read and write the same `%.15g`-printed fields, modelled as the
model itself. -/
structure SerializedRPCTransformer where
  Reversed : ℤ
  HeightOffset : ℚ
  HeightScale : Option ℚ
  DEMPath : Option String
  DEMInterpolation : Option String
  DEMMissingValue : Option ℚ
  DEMApplyVDatumShift : Option Bool
  DEMSRS : Option String
  PixErrThreshold : ℚ
  Metadata : GDALRPCInfoV2

/-- `GDALSerializeRPCTransformer`: which fields are written, and when. -/
def GDALSerializeRPCTransformer (psInfo : GDALRPCTransformInfo) :
    SerializedRPCTransformer :=
  { Reversed := if psInfo.bReversed then 1 else 0
    HeightOffset := psInfo.dfHeightOffset
    HeightScale :=
      if psInfo.dfHeightScale ≠ 1 then some psInfo.dfHeightScale else none
    DEMPath := psInfo.pszDEMPath
    DEMInterpolation := psInfo.pszDEMPath.map
      (fun _ => GDALSerializeRPCDEMResample psInfo.eResampleAlg)
    DEMMissingValue :=
      if psInfo.pszDEMPath.isSome ∧ psInfo.bHasDEMMissingValue then
        some psInfo.dfDEMMissingValue
      else none
    DEMApplyVDatumShift :=
      psInfo.pszDEMPath.map (fun _ => psInfo.bApplyDEMVDatumShift)
    DEMSRS :=
      if psInfo.pszDEMPath.isSome then psInfo.pszDEMSRS else none
    PixErrThreshold := psInfo.dfPixErrThreshold
    Metadata := psInfo.sRPC }

/-- `GDALDeserializeRPCTransformer`: rebuild the option list from the
tree and hand it, with the extracted RPC metadata, the `Reversed` flag and
the stored threshold, to `GDALCreateRPCTransformerV2`. -/
def GDALDeserializeRPCTransformer (s : SerializedRPCTransformer) :
    RPCParsedConfig :=
  let o0 : List (String × OptVal) := []
  let o1 := CSLSetNameValue o0 "RPC_HEIGHT" (OptVal.q s.HeightOffset)
  let o2 := CSLSetNameValue o1 "RPC_HEIGHT_SCALE"
    (OptVal.q (s.HeightScale.getD 1))
  let o3 :=
    match s.DEMPath with
    | none => o2
    | some path => CSLSetNameValue o2 "RPC_DEM" (OptVal.str path)
  let o4 := CSLSetNameValue o3 "RPC_DEMINTERPOLATION"
    (OptVal.str (s.DEMInterpolation.getD "bilinear"))
  let o5 :=
    match s.DEMMissingValue with
    | none => o4
    | some v => CSLSetNameValue o4 "RPC_DEM_MISSING_VALUE" (OptVal.q v)
  let o6 :=
    match s.DEMApplyVDatumShift with
    | none => o5
    | some v => CSLSetNameValue o5 "RPC_DEM_APPLY_VDATUM_SHIFT" (OptVal.b v)
  let o7 :=
    match s.DEMSRS with
    | none => o6
    | some v => CSLSetNameValue o6 "RPC_DEM_SRS" (OptVal.str v)
  GDALCreateRPCTransformerV2 s.Metadata (s.Reversed ≠ 0)
    s.PixErrThreshold o7

/-- The monomial order as the specification words it:
1, P, L, H, PL, PH, LH, P², L², H², PLH, P³, PL², PH², P²L, L³, LH²,
P²H, L²H, H³. -/
def specTermOrder (P L H : ℚ) : List ℚ :=
  [1, P, L, H, P * L, P * H, L * H, P ^ 2, L ^ 2, H ^ 2,
   P * L * H, P ^ 3, P * L ^ 2, P * H ^ 2, P ^ 2 * L, L ^ 3, L * H ^ 2,
   P ^ 2 * H, L ^ 2 * H, H ^ 3]

/-- The striped even/odd accumulation equals the plain 20-term dot
product. -/
theorem RPCEvaluate_eq_sum (f g : ℕ → ℚ) :
    RPCEvaluate f g = ∑ i ∈ Finset.range 20, f i * g i := by
  have h10 : List.range 10 = [0, 1, 2, 3, 4, 5, 6, 7, 8, 9] := by decide
  simp only [RPCEvaluate, h10, List.foldl_cons, List.foldl_nil]
  repeat rw [Finset.sum_range_succ]
  rw [Finset.sum_range_zero]
  norm_num
  ring

/-- The computed terms agree, index for index, with the specified
monomial order. -/
theorem RPCComputeTerms_eq_spec (P L H : ℚ) (i : Fin 20) :
    RPCComputeTerms P L H i.val = (specTermOrder P L H).getD i.val 0 := by
  fin_cases i <;>
    simp only [RPCComputeTerms, specTermOrder, List.getD_cons_zero,
      List.getD_cons_succ] <;>
    ring

/-- Claim C4: for every normalized triple (P, L, H) the evaluator computes
exactly the 20 monomials 1, P, L, H, PL, PH, LH, P², L², H², PLH, P³, PL²,
PH², P²L, L³, LH², P²H, L²H, H³ — in that order — and returns the four dot
products of this term vector with the model's line-numerator,
line-denominator, sample-numerator and sample-denominator coefficient
vectors. -/
theorem claim_C4 (P L H : ℚ) (m : GDALRPCInfoV2) :
    (∀ i : Fin 20,
      RPCComputeTerms P L H i.val = (specTermOrder P L H).getD i.val 0) ∧
    RPCEvaluate (RPCComputeTerms P L H) m.adfLINE_NUM_COEFF =
      ∑ i ∈ Finset.range 20,
        RPCComputeTerms P L H i * m.adfLINE_NUM_COEFF i ∧
    RPCEvaluate (RPCComputeTerms P L H) m.adfLINE_DEN_COEFF =
      ∑ i ∈ Finset.range 20,
        RPCComputeTerms P L H i * m.adfLINE_DEN_COEFF i ∧
    RPCEvaluate (RPCComputeTerms P L H) m.adfSAMP_NUM_COEFF =
      ∑ i ∈ Finset.range 20,
        RPCComputeTerms P L H i * m.adfSAMP_NUM_COEFF i ∧
    RPCEvaluate (RPCComputeTerms P L H) m.adfSAMP_DEN_COEFF =
      ∑ i ∈ Finset.range 20,
        RPCComputeTerms P L H i * m.adfSAMP_DEN_COEFF i :=
  ⟨RPCComputeTerms_eq_spec P L H,
   RPCEvaluate_eq_sum _ _, RPCEvaluate_eq_sum _ _,
   RPCEvaluate_eq_sum _ _, RPCEvaluate_eq_sum _ _⟩

/-- The forward transform as specified (§4.2 / claim C3): wrap the
longitude difference into (-270, 270], normalize, form the spec-ordered
monomial dot products, and denormalize with the +0.5 shift. -/
def specForwardTransform (m : GDALRPCInfoV2) (dfLong dfLat dfHeight : ℚ) :
    ℚ × ℚ :=
  let diff0 := dfLong - m.dfLONG_OFF
  let diff :=
    if diff0 < -270 then diff0 + 360
    else if diff0 > 270 then diff0 - 360
    else diff0
  let P := diff / m.dfLONG_SCALE
  let L := (dfLat - m.dfLAT_OFF) / m.dfLAT_SCALE
  let H := (dfHeight - m.dfHEIGHT_OFF) / m.dfHEIGHT_SCALE
  let dot := fun (c : ℕ → ℚ) =>
    ∑ i ∈ Finset.range 20, (specTermOrder P L H).getD i 0 * c i
  (dot m.adfSAMP_NUM_COEFF / dot m.adfSAMP_DEN_COEFF * m.dfSAMP_SCALE +
    m.dfSAMP_OFF + 1/2,
   dot m.adfLINE_NUM_COEFF / dot m.adfLINE_DEN_COEFF * m.dfLINE_SCALE +
    m.dfLINE_OFF + 1/2)

/-- The evaluator applied to the computed terms is the dot product against
the spec-ordered monomials. -/
theorem RPCEvaluate_terms_eq_spec_dot (P L H : ℚ) (c : ℕ → ℚ) :
    RPCEvaluate (RPCComputeTerms P L H) c =
      ∑ i ∈ Finset.range 20, (specTermOrder P L H).getD i 0 * c i := by
  rw [RPCEvaluate_eq_sum]
  refine Finset.sum_congr rfl (fun i hi => ?_)
  rw [RPCComputeTerms_eq_spec P L H ⟨i, Finset.mem_range.mp hi⟩]

/-- The RPC model of claim C3's concrete scenario: LONG_OFF = -105,
LAT_OFF = 40, HEIGHT_OFF = 2000, lat/long scales 1, height scale 500,
SAMP_OFF = LINE_OFF = SAMP_SCALE = LINE_SCALE = 5000, NUM[0] = DEN[0] = 1,
all other coefficients 0, bounds left at the full globe. -/
def rpcC3 : GDALRPCInfoV2 :=
  { dfLINE_OFF := 5000
    dfSAMP_OFF := 5000
    dfLAT_OFF := 40
    dfLONG_OFF := -105
    dfHEIGHT_OFF := 2000
    dfLINE_SCALE := 5000
    dfSAMP_SCALE := 5000
    dfLAT_SCALE := 1
    dfLONG_SCALE := 1
    dfHEIGHT_SCALE := 500
    adfLINE_NUM_COEFF := fun i => if i = 0 then 1 else 0
    adfLINE_DEN_COEFF := fun i => if i = 0 then 1 else 0
    adfSAMP_NUM_COEFF := fun i => if i = 0 then 1 else 0
    adfSAMP_DEN_COEFF := fun i => if i = 0 then 1 else 0
    dfMIN_LONG := -180
    dfMIN_LAT := -90
    dfMAX_LONG := 180
    dfMAX_LAT := 90 }

/-- Test fixture: a transformer around a given RPC model with no DEM, no
coordinate transformation, no footprint, and default knobs. -/
def baseTransformInfo (rpc : GDALRPCInfoV2) : GDALRPCTransformInfo :=
  { sRPC := rpc
    adfPLToLatLongGeoTransform := fun _ => 0
    dfRefZ := 0
    bReversed := false
    dfPixErrThreshold := 1/10
    dfHeightOffset := 0
    dfHeightScale := 1
    pszDEMPath := none
    eResampleAlg := DEMResampleAlg.DRA_Bilinear
    bHasDEMMissingValue := false
    dfDEMMissingValue := 0
    pszDEMSRS := none
    bApplyDEMVDatumShift := true
    poDS := none
    poCT := none
    nMaxIterations := 0
    adfDEMGeoTransform := fun _ => 0
    adfDEMReverseGeoTransform := fun _ => 0
    pszRPCFootprint := none
    poRPCFootprintPreparedGeom := none }

/-- Claim C3, counterexample: the stated scenario does not produce
(5000.5, 5000.5) — the polynomial ratio is 1 (not 0), so the result is
(1·5000 + 5000 + 0.5, 1·5000 + 5000 + 0.5) = (10000.5, 10000.5). -/
theorem claim_C3_counterexample :
    RPCTransformPoint (baseTransformInfo rpcC3) (-105) 40 2000 ≠
      ((10001/2 : ℚ), (10001/2 : ℚ)) := by
  norm_num [RPCTransformPoint, baseTransformInfo, rpcC3, RPCEvaluate,
    RPCComputeTerms, List.range_succ, Prod.ext_iff]

/-- Claim C3 (amended): the forward transform computes
pixel = (sampleNum/sampleDen)·SAMP_SCALE + SAMP_OFF + 0.5 and
line = (lineNum/lineDen)·LINE_SCALE + LINE_OFF + 0.5 on the normalized
inputs (the spec-ordered monomial dot products), and the stated model
forward-transforms (-105, 40, 2000) to exactly (10000.5, 10000.5) — the
numerator and denominator are both exactly 1, so the ratio is 1, not 0. -/
theorem claim_C3 (t : GDALRPCTransformInfo) (dfLong dfLat dfHeight : ℚ) :
    RPCTransformPoint t dfLong dfLat dfHeight =
      specForwardTransform t.sRPC dfLong dfLat dfHeight ∧
    RPCTransformPoint (baseTransformInfo rpcC3) (-105) 40 2000 =
      ((20001/2 : ℚ), (20001/2 : ℚ)) := by
  constructor
  · simp only [RPCTransformPoint, specForwardTransform,
      RPCEvaluate_terms_eq_spec_dot]
  · norm_num [RPCTransformPoint, baseTransformInfo, rpcC3, RPCEvaluate,
      RPCComputeTerms, List.range_succ, Prod.ext_iff]

/-- The loop performs at most `fuel` forward-evaluator calls. -/
theorem RPCInverseLoop_count_le (t : GDALRPCTransformInfo)
    (p l h : ℚ) :
    ∀ (fuel iIter : ℕ) (st : InvState),
      (RPCInverseLoop t p l h fuel iIter st).2 ≤ fuel := by
  intro fuel
  induction fuel with
  | zero => intro iIter st; simp [RPCInverseLoop]
  | succ n ih =>
    intro iIter st
    rw [RPCInverseLoop]
    cases hinv : invIterHeight t iIter st.dfResultX st.dfResultY with
    | none => simp
    | some dfDEMH =>
      dsimp only
      split
      · simp
      · split
        · exact Nat.succ_le_succ (ih _ _)
        · exact Nat.succ_le_succ (ih _ _)

/-- Without a DEM the elevation result is always the plain height
offset. -/
theorem invIterHeight_no_dem (t : GDALRPCTransformInfo)
    (hds : t.poDS = none) (iIter : ℕ) (x y : ℚ) :
    invIterHeight t iIter x y =
      some (0 + (t.dfHeightOffset + 0 * t.dfHeightScale)) := by
  simp [invIterHeight, GDALRPCGetHeightAtLongLat, hds]

/-- With a non-positive threshold and no DEM, the loop never converges
early and always burns the whole budget, reporting failure. -/
theorem RPCInverseLoop_no_dem_nonpos (t : GDALRPCTransformInfo)
    (p l h : ℚ) (hds : t.poDS = none)
    (hthr : t.dfPixErrThreshold ≤ 0) :
    ∀ (fuel iIter : ℕ) (st : InvState),
      RPCInverseLoop t p l h fuel iIter st = (none, fuel) := by
  intro fuel
  induction fuel with
  | zero => intro iIter st; simp [RPCInverseLoop]
  | succ n ih =>
    intro iIter st
    rw [RPCInverseLoop]
    rw [invIterHeight_no_dem t hds]
    dsimp only
    rw [if_neg, if_neg]
    · rw [ih]
    · rw [hds]
      simp
    · intro hcontra
      have h0 : (0 : ℚ) ≤ max
          |(RPCTransformPoint t st.dfResultX st.dfResultY
              (h + (0 + (t.dfHeightOffset + 0 * t.dfHeightScale)))).1 - p|
          |(RPCTransformPoint t st.dfResultX st.dfResultY
              (h + (0 + (t.dfHeightOffset + 0 * t.dfHeightScale)))).2 - l| :=
        le_max_of_le_left (abs_nonneg _)
      exact absurd hcontra (not_lt.mpr (hthr.trans h0))

/-- Claim C6: the pixel-error threshold defaults to 0.1 when neither the
option nor a positive parameter supplies one, and a transformer whose
stored threshold is zero or negative (obtainable by configuring
`RPC_PIXEL_ERROR_THRESHOLD` to such a value) never converges early: the
solve runs the full iteration budget and reports failure (no DEM here, so
no elevation abort interferes). -/
theorem claim_C6 (psRPCInfo : GDALRPCInfoV2) (bReversed : Bool)
    (dfPixErrThreshold : ℚ) (papszOptions : List (String × OptVal))
    (t : GDALRPCTransformInfo) (dfPixel dfLine dfUserHeight : ℚ)
    (hopt : CSLFetchNameValue papszOptions "RPC_PIXEL_ERROR_THRESHOLD" =
      none)
    (hparam : dfPixErrThreshold ≤ 0)
    (hthr : t.dfPixErrThreshold ≤ 0) (hds : t.poDS = none) :
    (GDALCreateRPCTransformerV2 psRPCInfo bReversed dfPixErrThreshold
        papszOptions).dfPixErrThreshold = 1/10 ∧
    RPCInverseTransformPoint t dfPixel dfLine dfUserHeight =
      (none, effectiveMaxIterations t) := by
  constructor
  · simp [GDALCreateRPCTransformerV2, hopt, not_lt.mpr hparam]
  · exact RPCInverseLoop_no_dem_nonpos t dfPixel dfLine dfUserHeight
      hds hthr _ _ _

/-- An RPC model that sends every ground point to pixel/line (0.5, 0.5):
all offsets 0, all scales 1, zero numerators, denominator coefficient
vectors 1, 0, 0, …. -/
def rpcZero : GDALRPCInfoV2 :=
  { dfLINE_OFF := 0
    dfSAMP_OFF := 0
    dfLAT_OFF := 0
    dfLONG_OFF := 0
    dfHEIGHT_OFF := 0
    dfLINE_SCALE := 1
    dfSAMP_SCALE := 1
    dfLAT_SCALE := 1
    dfLONG_SCALE := 1
    dfHEIGHT_SCALE := 1
    adfLINE_NUM_COEFF := fun _ => 0
    adfLINE_DEN_COEFF := fun i => if i = 0 then 1 else 0
    adfSAMP_NUM_COEFF := fun _ => 0
    adfSAMP_DEN_COEFF := fun i => if i = 0 then 1 else 0
    dfMIN_LONG := -180
    dfMIN_LAT := -90
    dfMAX_LONG := 180
    dfMAX_LAT := 90 }

/-- Fixture for the C6 witness: no DEM, stored threshold 0. -/
def tC6 : GDALRPCTransformInfo :=
  { baseTransformInfo rpcZero with dfPixErrThreshold := 0 }

/-- Witness for claim C6 at a concrete transformer and point: the default
threshold resolution and the full 10-iteration budget. -/
theorem claim_C6_witness :
    (GDALCreateRPCTransformerV2 rpcZero false 0 []).dfPixErrThreshold =
      1/10 ∧
    RPCInverseTransformPoint tC6 5 5 0 =
      (none, effectiveMaxIterations tC6) :=
  claim_C6 rpcZero false 0 [] tC6 5 5 0 rfl (by norm_num)
    (le_of_eq (show tC6.dfPixErrThreshold = 0 from rfl)) rfl

/-- The identity geotransform (and its own inverse). -/
def gtIdent : ℕ → ℚ := fun i => if i = 1 then 1 else if i = 5 then 1 else 0

/-- A 100×100 all-zero elevation raster without nodata. -/
def dsZero : DEMDataset :=
  { nRasterXSize := 100
    nRasterYSize := 100
    band := fun _ _ => 0
    noDataValue := none }

/-- Fixture for the C5 counterexample: a DEM is configured, the iteration
cap is left unconfigured (0), and the stored threshold is 0 (configurable
via `RPC_PIXEL_ERROR_THRESHOLD=0`), so the solver burns the full default
budget of 20 iterations. -/
def tC5 : GDALRPCTransformInfo :=
  { baseTransformInfo rpcZero with
    dfPixErrThreshold := 0
    pszDEMPath := some "/vsimem/dem.tif"
    eResampleAlg := DEMResampleAlg.DRA_NearestNeighbour
    poDS := some dsZero
    adfPLToLatLongGeoTransform :=
      fun i => if i = 0 then 50 else if i = 3 then 50 else 0
    adfDEMGeoTransform := gtIdent
    adfDEMReverseGeoTransform := gtIdent }

/-- At a guess whose back-projection hits the target exactly and whose
elevation sample is stable, a non-positive threshold keeps the loop
spinning: the guess never moves (all deltas are zero), no early exit is
ever taken, and the count equals the full fuel. -/
theorem RPCInverseLoop_fixedpoint (t : GDALRPCTransformInfo)
    (p l h x y d : ℚ)
    (hthr : t.dfPixErrThreshold ≤ 0)
    (hheight : ∀ iIter, invIterHeight t iIter x y = some d)
    (hback : RPCTransformPoint t x y (h + d) = (p, l)) :
    ∀ (fuel iIter : ℕ) (st : InvState),
      st.dfResultX = x → st.dfResultY = y →
      RPCInverseLoop t p l h fuel iIter st = (none, fuel) := by
  intro fuel
  induction fuel with
  | zero => intro iIter st hx hy; simp [RPCInverseLoop]
  | succ n ih =>
    intro iIter st hx hy
    rw [RPCInverseLoop, hx, hy, hheight]
    dsimp only
    rw [hback]
    dsimp only
    rw [if_neg, if_neg]
    · rw [ih (iIter + 1) _ (by simp) (by simp)]
    · simp
    · simp only [sub_self, abs_zero, max_self]
      exact not_lt.mpr hthr

/-- Evaluation: sampling the C5 fixture's DEM at the fixed guess
succeeds with height 0. -/
theorem tC5_sample : GDALRPCGetHeightAtLongLat tC5 50 50 = (some 0, 50, 50) := by
  norm_num [GDALRPCGetHeightAtLongLat, tC5, baseTransformInfo, dsZero,
    gtIdent, GDALApplyGeoTransform, GDALRPCGetDEMHeight,
    GDALInterpolateAtPoint]

/-- Evaluation: every iteration of the C5 fixture obtains height 0. -/
theorem tC5_height (iIter : ℕ) : invIterHeight tC5 iIter 50 50 = some 0 := by
  simp [invIterHeight, tC5_sample]

/-- Evaluation: the back-projection of the fixed guess hits the target
(0.5, 0.5) exactly. -/
theorem tC5_back : RPCTransformPoint tC5 50 50 (0 + 0) = (1/2, 1/2) := by
  norm_num [RPCTransformPoint, tC5, baseTransformInfo, rpcZero, RPCEvaluate,
    RPCComputeTerms, List.range_succ, Prod.ext_iff]

/-- The effective budget never exceeds max(20, configured cap). -/
theorem effectiveMaxIterations_le (t : GDALRPCTransformInfo) :
    effectiveMaxIterations t ≤ max 20 t.nMaxIterations.toNat := by
  unfold effectiveMaxIterations
  split
  · exact le_max_right _ _
  · split
    · exact le_max_left _ _
    · exact le_trans (by norm_num) (le_max_left 20 _)

/-- Claim C5 (amended): the per-point inverse solve performs at most
`effectiveMaxIterations` forward-evaluator calls, where the effective
budget is the configured maximum when positive and otherwise defaults to
20 with an elevation raster and 10 without; consequently the solver never
performs more than max(20, iterationCap) forward-evaluator calls — the
bound max(10, iterationCap) claimed by the spec fails in the
DEM-configured default case, see the counterexample. -/
theorem claim_C5 (t : GDALRPCTransformInfo)
    (dfPixel dfLine dfUserHeight : ℚ) :
    (RPCInverseTransformPoint t dfPixel dfLine dfUserHeight).2 ≤
      effectiveMaxIterations t ∧
    effectiveMaxIterations t =
      (if 0 < t.nMaxIterations then t.nMaxIterations.toNat
       else if t.poDS.isSome then 20 else 10) ∧
    (RPCInverseTransformPoint t dfPixel dfLine dfUserHeight).2 ≤
      max 20 t.nMaxIterations.toNat := by
  have hb : (RPCInverseTransformPoint t dfPixel dfLine dfUserHeight).2 ≤
      effectiveMaxIterations t :=
    RPCInverseLoop_count_le t dfPixel dfLine dfUserHeight _ 0 _
  exact ⟨hb, rfl, le_trans hb (effectiveMaxIterations_le t)⟩

/-- Claim C5, counterexample: with a DEM configured and the iteration cap
unconfigured (0), a point that never converges (threshold 0) burns 20
forward-evaluator calls, exceeding the claimed bound
max(10, iterationCap) = 10. -/
theorem claim_C5_counterexample :
    (RPCInverseTransformPoint tC5 (1/2) (1/2) 0).2 = 20 ∧
    ¬((RPCInverseTransformPoint tC5 (1/2) (1/2) 0).2 ≤
        max 10 tC5.nMaxIterations.toNat) := by
  have hfix := RPCInverseLoop_fixedpoint tC5 (1/2) (1/2) 0 50 50 0
    (le_of_eq (show tC5.dfPixErrThreshold = 0 from rfl))
    tC5_height (by rw [tC5_back])
  have hloop : RPCInverseTransformPoint tC5 (1/2) (1/2) 0 = (none, 20) := by
    rw [RPCInverseTransformPoint]
    rw [show effectiveMaxIterations tC5 = 20 from rfl]
    exact hfix 20 0 _ (by norm_num [tC5, baseTransformInfo])
      (by norm_num [tC5, baseTransformInfo])
  rw [hloop]
  constructor
  · rfl
  · rw [show tC5.nMaxIterations = 0 from rfl]
    norm_num

/-- If the very first examined iteration back-projects onto the target
within the threshold, the loop converges there with exactly one
forward-evaluator call. -/
theorem RPCInverseLoop_converge_first (t : GDALRPCTransformInfo)
    (p l h x y d bx b2 : ℚ) (fuel iIter : ℕ) (st : InvState)
    (hx : st.dfResultX = x) (hy : st.dfResultY = y)
    (hheight : invIterHeight t iIter x y = some d)
    (hback : RPCTransformPoint t x y (h + d) = (bx, b2))
    (herr : max |bx - p| |b2 - l| < t.dfPixErrThreshold) :
    RPCInverseLoop t p l h (fuel + 1) iIter st = (some (x, y), 1) := by
  rw [RPCInverseLoop, hx, hy, hheight]
  dsimp only
  rw [hback]
  dsimp only
  rw [if_pos herr]

/-- An RPC model whose pixel coordinate is the (normalized) height plus
0.5 and whose line coordinate is the constant 0.5. -/
def rpcHeightPix : GDALRPCInfoV2 :=
  { rpcZero with adfSAMP_NUM_COEFF := fun i => if i = 3 then 1 else 0 }

/-- Fixture for claim C7: a 100×100 DEM, the affine seed sending every
target to DEM (pixel, line) = (10, -3) — inside the raster in the pixel
axis, below it in the line axis — and a recognizable reference height
55. -/
def tC7 : GDALRPCTransformInfo :=
  { baseTransformInfo rpcHeightPix with
    pszDEMPath := some "/vsimem/dem.tif"
    poDS := some dsZero
    dfRefZ := 55
    adfPLToLatLongGeoTransform :=
      fun i => if i = 0 then 10 else if i = 3 then -3 else 0
    adfDEMGeoTransform := gtIdent
    adfDEMReverseGeoTransform := gtIdent }

/-- Evaluation: sampling the C7 fixture at the seed fails (the DEM probe
line is −3, outside the raster), reporting probe (10, −3). -/
theorem tC7_sample :
    GDALRPCGetHeightAtLongLat tC7 10 (-3) = (none, 10, -3) := by
  norm_num [GDALRPCGetHeightAtLongLat, tC7, baseTransformInfo, dsZero,
    gtIdent, GDALApplyGeoTransform, GDALRPCGetDEMHeight,
    GDALInterpolateAtPoint]

/-- Evaluation: the first-iteration fallback of the C7 fixture.  The snap
leaves the line at −3 (the second clamp re-tests the pixel axis), the
snapped lookup still fails, and the reference height 55 is substituted. -/
theorem tC7_height : invIterHeight tC7 0 10 (-3) = some 55 := by
  simp only [invIterHeight, tC7_sample]
  norm_num [tC7, baseTransformInfo, dsZero, gtIdent, snapDEMPixelLine,
    GDALRPCGetDEMHeight, GDALInterpolateAtPoint]

/-- Evaluation: back-projecting the seed with the substituted reference
height hits the target (55.5, 0.5) exactly. -/
theorem tC7_back : RPCTransformPoint tC7 10 (-3) (0 + 55) = (111/2, 1/2) := by
  norm_num [RPCTransformPoint, tC7, baseTransformInfo, rpcHeightPix,
    rpcZero, RPCEvaluate, RPCComputeTerms, List.range_succ, Prod.ext_iff]

/-- Claim C7 (code bug): the first-iteration snap does not clamp the line
axis from below — its second branch re-tests `dfDEMPixel < 0` instead of
`dfDEMLine < 0` — so a probe at DEM (pixel, line) = (10, −3) against a
100×100 raster stays at (10, −3) instead of being snapped to the nearest
valid cell, the snapped lookup fails again, and the solver falls back to
the reference height (55 here, observable in the converged result). -/
theorem claim_C7 :
    snapDEMPixelLine 100 100 10 (-3) = (10, -3) ∧
    RPCInverseTransformPoint tC7 (111/2) (1/2) 0 = (some (10, -3), 1) := by
  constructor
  · norm_num [snapDEMPixelLine]
  · rw [RPCInverseTransformPoint,
      show effectiveMaxIterations tC7 = 20 from rfl,
      show (20 : ℕ) = 19 + 1 from rfl]
    exact RPCInverseLoop_converge_first tC7 (111/2) (1/2) 0 10 (-3) 55
      (111/2) (1/2) 19 0 _
      (by norm_num [tC7, baseTransformInfo])
      (by norm_num [tC7, baseTransformInfo])
      tC7_height tC7_back
      (by norm_num [tC7, baseTransformInfo])

/-- The C2 footprint oracle: containment in the square [0,10]×[0,10]. -/
def footprintSquare : ℚ → ℚ → Bool :=
  fun x y => decide (0 ≤ x ∧ x ≤ 10 ∧ 0 ≤ y ∧ y ≤ 10)

/-- RPC model for claim C2: every ground point near (50, 50) maps to
pixel/line (5, 5). -/
def rpcC2 : GDALRPCInfoV2 :=
  { rpcZero with
    dfLONG_OFF := 50
    dfLAT_OFF := 50
    dfSAMP_OFF := 9/2
    dfLINE_OFF := 9/2 }

/-- Fixture for claim C2: a footprint square [0,10]² in ground space that
contains the input pixel/line (5, 5) read as coordinates but not the
computed ground point (50, 50); the affine seed sends (5, 5) to
(50, 50). -/
def tC2 : GDALRPCTransformInfo :=
  { baseTransformInfo rpcC2 with
    adfPLToLatLongGeoTransform :=
      fun i => if i = 0 then 45 else if i = 1 then 1
        else if i = 3 then 45 else if i = 5 then 1 else 0
    pszRPCFootprint := some "POLYGON((0 0,10 0,10 10,0 10,0 0))"
    poRPCFootprintPreparedGeom := some footprintSquare }

/-- Evaluation: the C2 fixture's elevation result (no DEM) is height 0. -/
theorem tC2_height (iIter : ℕ) : invIterHeight tC2 iIter 50 50 = some 0 := by
  rw [invIterHeight_no_dem tC2 rfl]
  norm_num [tC2, baseTransformInfo]

/-- Evaluation: back-projection of the ground point (50, 50). -/
theorem tC2_back : RPCTransformPoint tC2 50 50 (0 + 0) = (5, 5) := by
  norm_num [RPCTransformPoint, tC2, baseTransformInfo, rpcC2, rpcZero,
    RPCEvaluate, RPCComputeTerms, List.range_succ, Prod.ext_iff]

/-- Evaluation: the inverse solve of pixel/line (5, 5) converges on the
first iteration to ground (50, 50). -/
theorem tC2_solve : RPCInverseTransformPoint tC2 5 5 0 = (some (50, 50), 1) := by
  rw [RPCInverseTransformPoint,
    show effectiveMaxIterations tC2 = 10 from rfl,
    show (10 : ℕ) = 9 + 1 from rfl]
  exact RPCInverseLoop_converge_first tC2 5 5 0 50 50 0 5 5 9 0 _
    (by norm_num [tC2, baseTransformInfo])
    (by norm_num [tC2, baseTransformInfo])
    (tC2_height 0) tC2_back
    (by norm_num [tC2, baseTransformInfo])

/-- Claim C2 (code bug): in the image-to-ground direction the validity
check is applied to the input pixel/line (`padfX[i]`/`padfY[i]` before the
result is stored), not to the computed ground long/lat.  Here the computed
ground point (50, 50) lies outside the configured footprint, yet the point
is reported successful because (5, 5) — the pixel/line — happens to lie
inside the square. -/
theorem claim_C2 :
    GDALRPCTransform tC2 false
      [{ x := Dbl.num 5, y := Dbl.num 5, z := 0 }] true =
      ([{ x := Dbl.num 50, y := Dbl.num 50, success := true }], true) ∧
    RPCIsValidLongLat tC2 50 50 = false := by
  constructor
  · have hdisp : GDALRPCTransform tC2 false
        [{ x := Dbl.num 5, y := Dbl.num 5, z := 0 }] true =
        runPoints (RPCInverseOnePoint tC2)
          [{ x := Dbl.num 5, y := Dbl.num 5, z := 0 }] := rfl
    rw [hdisp]
    simp only [runPoints, List.map, List.foldl, RPCInverseOnePoint,
      Dbl.toQ, tC2_solve]
    norm_num [RPCIsValidLongLat, tC2, baseTransformInfo, footprintSquare]
  · norm_num [RPCIsValidLongLat, tC2, baseTransformInfo, footprintSquare]

/-- Fixture for claim C1: heightScale 2 and heightOffset 100 over an
all-zero DEM; the RPC model reports the supplied height (plus 0.5) as the
pixel coordinate, making the applied height directly observable. -/
def tC1 : GDALRPCTransformInfo :=
  { baseTransformInfo rpcHeightPix with
    dfHeightOffset := 100
    dfHeightScale := 2
    pszDEMPath := some "/vsimem/dem.tif"
    poDS := some dsZero
    adfDEMGeoTransform := gtIdent
    adfDEMReverseGeoTransform := gtIdent }

/-- The batch row for claim C1: ten identical points at (20, 50). -/
def ptC1 : RPCPoint := { x := Dbl.num 20, y := Dbl.num 50, z := 0 }

/-- Ten collinear points, enough to engage the row optimizer. -/
def ptsC1 : List RPCPoint :=
  [ptC1, ptC1, ptC1, ptC1, ptC1, ptC1, ptC1, ptC1, ptC1, ptC1]

/-- Evaluation: the batch loop body applies height
(heightOffset + demH) · heightScale = (100 + 0) · 2 = 200 and produces
pixel 200.5. -/
theorem tC1_batch_point :
    GDALRPCTransformWholeLineOnePoint tC1 dsZero 19 49 (1/2)
      { x := Dbl.num 20, y := Dbl.num 50, z := 0 } =
      { x := Dbl.num (401/2), y := Dbl.num (1/2), success := true } := by
  norm_num [GDALRPCTransformWholeLineOnePoint, tC1, baseTransformInfo,
    dsZero, gtIdent, ptC1, cint, ARE_REAL_EQUAL, RPCIsValidLongLat,
    RPCTransformPoint, rpcHeightPix, rpcZero, RPCEvaluate, RPCComputeTerms,
    List.range_succ, Dbl.toQ, Prod.ext_iff]

/-- Evaluation: the per-point path applies height
heightOffset + demH · heightScale = 100 + 0 · 2 = 100 and produces pixel
100.5. -/
theorem tC1_perpoint :
    RPCForwardOnePoint tC1 ptC1 =
      { x := Dbl.num (201/2), y := Dbl.num (1/2), success := true } := by
  norm_num [RPCForwardOnePoint, tC1, baseTransformInfo, dsZero, gtIdent,
    ptC1, RPCIsValidLongLat, GDALRPCGetHeightAtLongLat,
    GDALRPCGetDEMHeight, GDALInterpolateAtPoint, GDALApplyGeoTransform,
    RPCTransformPoint, rpcHeightPix, rpcZero, RPCEvaluate, RPCComputeTerms,
    List.range_succ, Dbl.toQ, Prod.ext_iff]

/-- Claim C1 (code bug): a batch satisfying the row optimizer's
applicability test produces pixel 200.5 for every point, while the
non-batch per-point path on the same inputs produces pixel 100.5 — the
batch passes (heightOffset + demH)·heightScale to the forward transform
where the per-point path passes heightOffset + demH·heightScale. -/
theorem claim_C1 :
    GDALRPCTransform tC1 true ptsC1 true =
      (List.replicate 10
        { x := Dbl.num (401/2), y := Dbl.num (1/2), success := true },
       true) ∧
    runPoints (RPCForwardOnePoint tC1) ptsC1 =
      (List.replicate 10
        { x := Dbl.num (201/2), y := Dbl.num (1/2), success := true },
       true) ∧
    (GDALRPCTransform tC1 true ptsC1 true).1 ≠
      (runPoints (RPCForwardOnePoint tC1) ptsC1).1 := by
  have hbatch : GDALRPCTransform tC1 true ptsC1 true =
      (List.replicate 10
        { x := Dbl.num (401/2), y := Dbl.num (1/2), success := true },
       true) := by
    norm_num [GDALRPCTransform, GDALRPCTransformWholeLineWithDEM, runPoints,
      RPCBatchApplicable, RPCWholeLineWindow, ptsC1, ptC1,
      show tC1.poDS = some dsZero from rfl,
      show tC1.bReversed = false from rfl,
      show tC1.poCT = (none : Option CoordTransform) from rfl,
      show tC1.eResampleAlg = DEMResampleAlg.DRA_Bilinear from rfl,
      show tC1.adfDEMReverseGeoTransform = gtIdent from rfl,
      show dsZero.nRasterXSize = 100 from rfl,
      show dsZero.nRasterYSize = 100 from rfl,
      gtIdent, GDALApplyGeoTransform, cint, Dbl.toQ, tC1_batch_point,
      List.replicate, Prod.ext_iff,
      show DEMResampleAlg.DRA_Bilinear ≠ DEMResampleAlg.DRA_NearestNeighbour
        from by decide]
  have hpp : runPoints (RPCForwardOnePoint tC1) ptsC1 =
      (List.replicate 10
        { x := Dbl.num (201/2), y := Dbl.num (1/2), success := true },
       true) := by
    simp [runPoints, ptsC1, tC1_perpoint, List.replicate]
  refine ⟨hbatch, hpp, ?_⟩
  rw [hbatch, hpp]
  norm_num [List.replicate]

/-- Per-point failure discipline: a failed point either carries the
`HUGE_VAL` sentinel in both coordinates or (batch cubic all-nodata
failure, batch skip of an already-invalid input) keeps its input
coordinates; a successful point carries finite computed coordinates. -/
def sentinelDiscipline (p : RPCPoint) (o : RPCPointResult) : Prop :=
  (o.success = false →
    (o.x = Dbl.hugeVal ∧ o.y = Dbl.hugeVal) ∨ (o.x = p.x ∧ o.y = p.y)) ∧
  (o.success = true → (∃ a, o.x = Dbl.num a) ∧ ∃ b, o.y = Dbl.num b)

/-- The forward loop body obeys the failure discipline. -/
theorem RPCForwardOnePoint_discipline (t : GDALRPCTransformInfo)
    (p : RPCPoint) : sentinelDiscipline p (RPCForwardOnePoint t p) := by
  unfold sentinelDiscipline RPCForwardOnePoint
  split
  · simp
  · split <;> simp

/-- The inverse loop body obeys the failure discipline. -/
theorem RPCInverseOnePoint_discipline (t : GDALRPCTransformInfo)
    (p : RPCPoint) : sentinelDiscipline p (RPCInverseOnePoint t p) := by
  unfold sentinelDiscipline RPCInverseOnePoint
  split
  · simp
  · split <;> simp

/-- The batch loop body obeys the failure discipline. -/
theorem GDALRPCTransformWholeLineOnePoint_discipline
    (t : GDALRPCTransformInfo) (ds : DEMDataset) (nXLeft nYTop : ℤ)
    (dfDeltaY : ℚ) (p : RPCPoint) :
    sentinelDiscipline p
      (GDALRPCTransformWholeLineOnePoint t ds nXLeft nYTop dfDeltaY p) := by
  unfold sentinelDiscipline GDALRPCTransformWholeLineOnePoint
  rcases p with ⟨px, py, pz⟩
  cases px with
  | hugeVal => simp
  | num xq =>
    rcases hnd : ds.noDataValue with _ | nd <;>
      simp only [hnd] <;>
      repeat' split
    all_goals simp

/-- The running `bRet` conjunction equals the conjunction of all flags. -/
theorem foldl_and_success (l : List RPCPointResult) (b : Bool) :
    l.foldl (fun acc o => acc && o.success) b =
      (b && (l.map RPCPointResult.success).all id) := by
  induction l generalizing b with
  | nil => simp
  | cons h tl ih => simp [List.foldl, ih, Bool.and_assoc]

/-- A per-point loop returns `true` exactly when every flag is `true`. -/
theorem runPoints_ret (f : RPCPoint → RPCPointResult)
    (pts : List RPCPoint) :
    (runPoints f pts).2 =
      ((runPoints f pts).1.map RPCPointResult.success).all id := by
  simp [runPoints, foldl_and_success]

/-- A per-point loop's i-th output is the body applied to the i-th
input. -/
theorem runPoints_get? (f : RPCPoint → RPCPointResult)
    (pts : List RPCPoint) (i : ℕ) :
    (runPoints f pts).1.get? i = (pts.get? i).map f := by
  simp [runPoints]

/-- Every dispatch path of `GDALRPCTransform` is a per-point loop whose
body obeys the failure discipline. -/
theorem GDALRPCTransform_runPoints (t : GDALRPCTransformInfo)
    (bDstToSrc : Bool) (pts : List RPCPoint) (demOptim : Bool) :
    ∃ f : RPCPoint → RPCPointResult,
      GDALRPCTransform t bDstToSrc pts demOptim = runPoints f pts ∧
      ∀ q, sentinelDiscipline q (f q) := by
  cases hdst : (if t.bReversed then !bDstToSrc else bDstToSrc) with
  | false =>
    refine ⟨RPCInverseOnePoint t, ?_,
      fun q => RPCInverseOnePoint_discipline t q⟩
    simp [GDALRPCTransform, hdst]
  | true =>
    cases hds : t.poDS with
    | none =>
      refine ⟨RPCForwardOnePoint t, ?_,
        fun q => RPCForwardOnePoint_discipline t q⟩
      simp [GDALRPCTransform, hdst, hds]
    | some ds =>
      simp only [GDALRPCTransform, GDALRPCTransformWholeLineWithDEM,
        hdst, hds, if_true]
      split
      · exact ⟨_, rfl,
          fun q => GDALRPCTransformWholeLineOnePoint_discipline _ _ _ _ _ q⟩
      · exact ⟨_, rfl, fun q => RPCForwardOnePoint_discipline t q⟩

/-- Claim C8 (amended): the overall return value is true exactly when
every per-point flag is true; a failed point either has both coordinates
set to the `HUGE_VAL` sentinel or — in the batch path's cubic all-nodata
failure and its skip of an already-invalid input — keeps its input
coordinates; a successful point's coordinates are finite computed
values. -/
theorem claim_C8 (t : GDALRPCTransformInfo) (bDstToSrc demOptim : Bool)
    (pts : List RPCPoint) (i : ℕ) (o : RPCPointResult) (p : RPCPoint)
    (ho : (GDALRPCTransform t bDstToSrc pts demOptim).1.get? i = some o)
    (hp : pts.get? i = some p) :
    ((GDALRPCTransform t bDstToSrc pts demOptim).2 =
      ((GDALRPCTransform t bDstToSrc pts demOptim).1.map
        RPCPointResult.success).all id) ∧
    (o.success = false →
      (o.x = Dbl.hugeVal ∧ o.y = Dbl.hugeVal) ∨
      (o.x = p.x ∧ o.y = p.y)) ∧
    (o.success = true → (∃ a, o.x = Dbl.num a) ∧ ∃ b, o.y = Dbl.num b) := by
  obtain ⟨f, heq, hd⟩ := GDALRPCTransform_runPoints t bDstToSrc pts demOptim
  refine ⟨?_, ?_, ?_⟩
  · rw [heq]; exact runPoints_ret f pts
  · rw [heq, runPoints_get?, hp] at ho
    obtain rfl : f p = o := Option.some.inj ho
    exact (hd p).1
  · rw [heq, runPoints_get?, hp] at ho
    obtain rfl : f p = o := Option.some.inj ho
    exact (hd p).2

/-- Fixture for the C8 counterexample: cubic interpolation over a DEM
whose every cell equals its nodata value 7, no missing-value fallback. -/
def dsC8 : DEMDataset :=
  { nRasterXSize := 100
    nRasterYSize := 100
    band := fun _ _ => 7
    noDataValue := some 7 }

/-- The transformer of the C8 counterexample. -/
def tC8 : GDALRPCTransformInfo :=
  { baseTransformInfo rpcHeightPix with
    pszDEMPath := some "/vsimem/dem.tif"
    eResampleAlg := DEMResampleAlg.DRA_CubicSpline
    poDS := some dsC8
    adfDEMGeoTransform := gtIdent
    adfDEMReverseGeoTransform := gtIdent }

/-- Evaluation: in the batch cubic path, a point whose whole 4×4 kernel is
nodata fails with its coordinates left unchanged (no sentinel). -/
theorem tC8_batch_point :
    GDALRPCTransformWholeLineOnePoint tC8 dsC8 18 48 (1/2)
      { x := Dbl.num 20, y := Dbl.num 50, z := 0 } =
      { x := Dbl.num 20, y := Dbl.num 50, success := false } := by
  norm_num [GDALRPCTransformWholeLineOnePoint, tC8, baseTransformInfo,
    dsC8, gtIdent, cint, ARE_REAL_EQUAL, Dbl.toQ, List.range_succ]

/-- Claim C8, counterexample: the batch cubic path over an all-nodata DEM
fails every point but leaves the input coordinates in place — the first
point's flag is false while its X cell still holds 20 rather than the
non-finite sentinel. -/
theorem claim_C8_counterexample :
    ((GDALRPCTransform tC8 true ptsC1 true).1.get? 0 =
      some { x := Dbl.num 20, y := Dbl.num 50, success := false }) ∧
    (GDALRPCTransform tC8 true ptsC1 true).2 = false ∧
    Dbl.num 20 ≠ Dbl.hugeVal := by
  have hbatch : GDALRPCTransform tC8 true ptsC1 true =
      (List.replicate 10
        { x := Dbl.num 20, y := Dbl.num 50, success := false },
       false) := by
    norm_num [GDALRPCTransform, GDALRPCTransformWholeLineWithDEM, runPoints,
      RPCBatchApplicable, RPCWholeLineWindow, ptsC1, ptC1,
      show tC8.poDS = some dsC8 from rfl,
      show tC8.bReversed = false from rfl,
      show tC8.poCT = (none : Option CoordTransform) from rfl,
      show tC8.eResampleAlg = DEMResampleAlg.DRA_CubicSpline from rfl,
      show tC8.adfDEMReverseGeoTransform = gtIdent from rfl,
      show dsC8.nRasterXSize = 100 from rfl,
      show dsC8.nRasterYSize = 100 from rfl,
      gtIdent, GDALApplyGeoTransform, cint, Dbl.toQ, tC8_batch_point,
      List.replicate, Prod.ext_iff,
      show DEMResampleAlg.DRA_CubicSpline ≠ DEMResampleAlg.DRA_NearestNeighbour
        from by decide]
  rw [hbatch]
  refine ⟨?_, rfl, by simp⟩
  simp [List.replicate]

/-- The C8 witness input and output. -/
def ptW : RPCPoint := { x := Dbl.num 0, y := Dbl.num 0, z := 0 }

/-- Evaluation for the C8 witness: the forward path sends the origin to
(0.5, 0.5) successfully. -/
theorem ptW_eval :
    RPCForwardOnePoint (baseTransformInfo rpcZero) ptW =
      { x := Dbl.num (1/2), y := Dbl.num (1/2), success := true } := by
  norm_num [RPCForwardOnePoint, baseTransformInfo, rpcZero, ptW,
    RPCIsValidLongLat, GDALRPCGetHeightAtLongLat, RPCTransformPoint,
    RPCEvaluate, RPCComputeTerms, List.range_succ, Dbl.toQ, Prod.ext_iff]

/-- Witness for claim C8 at a concrete one-point forward call. -/
theorem claim_C8_witness :
    ((GDALRPCTransform (baseTransformInfo rpcZero) true [ptW] true).2 =
      ((GDALRPCTransform (baseTransformInfo rpcZero) true [ptW] true).1.map
        RPCPointResult.success).all id) ∧
    (∃ a, (Dbl.num (1/2) : Dbl) = Dbl.num a) := by
  have ho : (GDALRPCTransform (baseTransformInfo rpcZero) true
      [ptW] true).1.get? 0 =
      some { x := Dbl.num (1/2), y := Dbl.num (1/2), success := true } := by
    have hdisp : GDALRPCTransform (baseTransformInfo rpcZero) true
        [ptW] true =
        runPoints (RPCForwardOnePoint (baseTransformInfo rpcZero))
          [ptW] := rfl
    rw [hdisp]
    simp [runPoints, ptW_eval]
  have h := claim_C8 (baseTransformInfo rpcZero) true true [ptW] 0
    { x := Dbl.num (1/2), y := Dbl.num (1/2), success := true } ptW ho rfl
  exact ⟨h.1, (h.2.2 rfl).1⟩

/-- Claim C9 (amended): for a transformer with a DEM configured and a
positive pixel-error threshold, deserializing the serialized form
reconstructs the direction flag, height offset and scale, DEM path,
interpolation kind, missing-value configuration, vdatum-shift flag, DEM
SRS override, pixel-error threshold and the full RPC parameter set — but
the maximum iteration count is reset to the unset default 0 and the
validity footprint is dropped, because the serializer never writes
them. -/
theorem claim_C9 (t : GDALRPCTransformInfo) (path : String)
    (hdem : t.pszDEMPath = some path)
    (hthr : 0 < t.dfPixErrThreshold) :
    (GDALDeserializeRPCTransformer
      (GDALSerializeRPCTransformer t)).bReversed = t.bReversed ∧
    (GDALDeserializeRPCTransformer
      (GDALSerializeRPCTransformer t)).dfPixErrThreshold =
      t.dfPixErrThreshold ∧
    (GDALDeserializeRPCTransformer
      (GDALSerializeRPCTransformer t)).dfHeightOffset = t.dfHeightOffset ∧
    (GDALDeserializeRPCTransformer
      (GDALSerializeRPCTransformer t)).dfHeightScale = t.dfHeightScale ∧
    (GDALDeserializeRPCTransformer
      (GDALSerializeRPCTransformer t)).pszDEMPath = t.pszDEMPath ∧
    (GDALDeserializeRPCTransformer
      (GDALSerializeRPCTransformer t)).eResampleAlg = t.eResampleAlg ∧
    (GDALDeserializeRPCTransformer
      (GDALSerializeRPCTransformer t)).bHasDEMMissingValue =
      t.bHasDEMMissingValue ∧
    (t.bHasDEMMissingValue = true →
      (GDALDeserializeRPCTransformer
        (GDALSerializeRPCTransformer t)).dfDEMMissingValue =
        t.dfDEMMissingValue) ∧
    (GDALDeserializeRPCTransformer
      (GDALSerializeRPCTransformer t)).pszDEMSRS = t.pszDEMSRS ∧
    (GDALDeserializeRPCTransformer
      (GDALSerializeRPCTransformer t)).bApplyDEMVDatumShift =
      t.bApplyDEMVDatumShift ∧
    (GDALDeserializeRPCTransformer
      (GDALSerializeRPCTransformer t)).sRPC = t.sRPC ∧
    (GDALDeserializeRPCTransformer
      (GDALSerializeRPCTransformer t)).nMaxIterations = 0 ∧
    (GDALDeserializeRPCTransformer
      (GDALSerializeRPCTransformer t)).pszRPCFootprint = none := by
  by_cases h1 : t.dfHeightScale = 1 <;>
    cases h2 : t.bHasDEMMissingValue <;>
    rcases h3 : t.pszDEMSRS with _ | srs <;>
    cases h4 : t.bReversed <;>
    cases h5 : t.eResampleAlg <;>
    simp [GDALSerializeRPCTransformer, GDALDeserializeRPCTransformer,
      GDALCreateRPCTransformerV2, CSLSetNameValue, CSLFetchNameValue,
      CPLFetchBool, OptVal.atof, OptVal.atoi, OptVal.toBool,
      OptVal.asString, GDALSerializeRPCDEMResample, parseDEMInterpolation,
      hdem, h1, h2, h3, h4, h5, hthr]

/-- Fixture for the C9 counterexample: a configured iteration cap of 40
and a validity footprint. -/
def tC9 : GDALRPCTransformInfo :=
  { baseTransformInfo rpcZero with
    nMaxIterations := 40
    pszRPCFootprint := some "POLYGON((0 0,1 0,1 1,0 1,0 0))"
    poRPCFootprintPreparedGeom := some footprintSquare }

/-- Claim C9, counterexample: the round trip loses the configured maximum
iteration count (40 becomes the unset default 0) and the footprint. -/
theorem claim_C9_counterexample :
    (GDALDeserializeRPCTransformer
      (GDALSerializeRPCTransformer tC9)).nMaxIterations ≠
      tC9.nMaxIterations ∧
    (GDALDeserializeRPCTransformer
      (GDALSerializeRPCTransformer tC9)).pszRPCFootprint ≠
      tC9.pszRPCFootprint := by
  constructor <;>
    simp [GDALSerializeRPCTransformer, GDALDeserializeRPCTransformer,
      GDALCreateRPCTransformerV2, CSLSetNameValue, CSLFetchNameValue,
      CPLFetchBool, OptVal.atof, OptVal.atoi, OptVal.toBool,
      OptVal.asString, GDALSerializeRPCDEMResample, parseDEMInterpolation,
      tC9, baseTransformInfo]

/-- Fixture for the C9 witness: a DEM-configured transformer. -/
def tC9w : GDALRPCTransformInfo :=
  { baseTransformInfo rpcZero with
    pszDEMPath := some "/vsimem/dem.tif"
    bHasDEMMissingValue := true
    dfDEMMissingValue := -32768
    pszDEMSRS := some "EPSG:4979" }

/-- Witness for claim C9 at the concrete DEM-configured transformer. -/
theorem claim_C9_witness :
    (GDALDeserializeRPCTransformer
      (GDALSerializeRPCTransformer tC9w)).bReversed = tC9w.bReversed ∧
    (GDALDeserializeRPCTransformer
      (GDALSerializeRPCTransformer tC9w)).dfPixErrThreshold =
      tC9w.dfPixErrThreshold ∧
    (GDALDeserializeRPCTransformer
      (GDALSerializeRPCTransformer tC9w)).dfHeightOffset =
      tC9w.dfHeightOffset ∧
    (GDALDeserializeRPCTransformer
      (GDALSerializeRPCTransformer tC9w)).dfHeightScale =
      tC9w.dfHeightScale ∧
    (GDALDeserializeRPCTransformer
      (GDALSerializeRPCTransformer tC9w)).pszDEMPath = tC9w.pszDEMPath ∧
    (GDALDeserializeRPCTransformer
      (GDALSerializeRPCTransformer tC9w)).eResampleAlg =
      tC9w.eResampleAlg ∧
    (GDALDeserializeRPCTransformer
      (GDALSerializeRPCTransformer tC9w)).bHasDEMMissingValue =
      tC9w.bHasDEMMissingValue ∧
    (tC9w.bHasDEMMissingValue = true →
      (GDALDeserializeRPCTransformer
        (GDALSerializeRPCTransformer tC9w)).dfDEMMissingValue =
        tC9w.dfDEMMissingValue) ∧
    (GDALDeserializeRPCTransformer
      (GDALSerializeRPCTransformer tC9w)).pszDEMSRS = tC9w.pszDEMSRS ∧
    (GDALDeserializeRPCTransformer
      (GDALSerializeRPCTransformer tC9w)).bApplyDEMVDatumShift =
      tC9w.bApplyDEMVDatumShift ∧
    (GDALDeserializeRPCTransformer
      (GDALSerializeRPCTransformer tC9w)).sRPC = tC9w.sRPC ∧
    (GDALDeserializeRPCTransformer
      (GDALSerializeRPCTransformer tC9w)).nMaxIterations = 0 ∧
    (GDALDeserializeRPCTransformer
      (GDALSerializeRPCTransformer tC9w)).pszRPCFootprint = none :=
  claim_C9 tC9w "/vsimem/dem.tif" rfl (by norm_num [tC9w, baseTransformInfo])

/-- The footprint-geometry creation step of `GDALCreateRPCTransformerV2`:
a prepared geometry is built (by the external GEOS parser) only when the
`RPC_FOOTPRINT` option was present. -/
def RPCFootprintGeomOfConfig (cfg : RPCParsedConfig)
    (parseGeom : String → Option (ℚ → ℚ → Bool)) :
    Option (ℚ → ℚ → Bool) :=
  cfg.pszRPCFootprint.bind parseGeom

/-- Claim C10: the clone's option list only ever carries the keys
RPC_HEIGHT, RPC_HEIGHT_SCALE, RPC_DEM, RPC_DEMINTERPOLATION,
RPC_DEM_MISSING_VALUE, RPC_DEM_APPLY_VDATUM_SHIFT and RPC_MAX_ITERATIONS;
consequently the cloned transformer parses no footprint and no DEM SRS
override, builds no prepared footprint geometry whatever the geometry
parser, and a transformer carrying the clone's (absent) geometry accepts
every point — the clone never performs footprint rejection. -/
theorem claim_C10 (t : GDALRPCTransformInfo) (dfRatioX dfRatioY : ℚ)
    (parseGeom : String → Option (ℚ → ℚ → Bool))
    (t2 : GDALRPCTransformInfo) (x y : ℚ) :
    ((((GDALCreateSimilarRPCTransformer t dfRatioX dfRatioY).2.map
        Prod.fst).all
      (fun k => ["RPC_HEIGHT", "RPC_HEIGHT_SCALE", "RPC_DEM",
        "RPC_DEMINTERPOLATION", "RPC_DEM_MISSING_VALUE",
        "RPC_DEM_APPLY_VDATUM_SHIFT",
        "RPC_MAX_ITERATIONS"].contains k)) = true) ∧
    (GDALCreateRPCTransformerV2
      (GDALCreateSimilarRPCTransformer t dfRatioX dfRatioY).1
      t.bReversed t.dfPixErrThreshold
      (GDALCreateSimilarRPCTransformer t dfRatioX dfRatioY).2
      ).pszRPCFootprint = none ∧
    (GDALCreateRPCTransformerV2
      (GDALCreateSimilarRPCTransformer t dfRatioX dfRatioY).1
      t.bReversed t.dfPixErrThreshold
      (GDALCreateSimilarRPCTransformer t dfRatioX dfRatioY).2
      ).pszDEMSRS = none ∧
    RPCFootprintGeomOfConfig
      (GDALCreateRPCTransformerV2
        (GDALCreateSimilarRPCTransformer t dfRatioX dfRatioY).1
        t.bReversed t.dfPixErrThreshold
        (GDALCreateSimilarRPCTransformer t dfRatioX dfRatioY).2)
      parseGeom = none ∧
    RPCIsValidLongLat
      { t2 with poRPCFootprintPreparedGeom := (RPCFootprintGeomOfConfig
          (GDALCreateRPCTransformerV2
            (GDALCreateSimilarRPCTransformer t dfRatioX dfRatioY).1
            t.bReversed t.dfPixErrThreshold
            (GDALCreateSimilarRPCTransformer t dfRatioX dfRatioY).2)
          parseGeom) }
      x y = true := by
  rcases hdem : t.pszDEMPath with _ | path <;>
    cases hmv : t.bHasDEMMissingValue <;>
    simp [GDALCreateSimilarRPCTransformer, GDALCreateRPCTransformerV2,
      CSLSetNameValue, CSLFetchNameValue, OptVal.asString,
      RPCFootprintGeomOfConfig, RPCIsValidLongLat, hdem, hmv]
